import Mathlib

set_option linter.unusedVariables false

/-!
Verification development for the query-schema builder and query-document
validator of the `prisma-engines` repository.

The Rust source is shallowly embedded below.  The repository snapshot mixes
two evolutions of the same subsystem (a lazy-closure design and an
arena/id-addressed design); following the arena design, embedded input and
output types reference other object types through their `Identifier` cache
key rather than by direct (possibly cyclic) reference, which is exactly the
mechanism the source uses to keep the type graph finite.
-/

namespace PrismaEngines

/-! ## Identifiers (`query-engine/schema/src/query_schema.rs`) -/

/-- Mirrors `enum IdentifierNamespace { Prisma, Model }`. -/
inductive IdentifierNamespace where
  | Prisma
  | Model
deriving DecidableEq, Repr

/-- Mirrors `struct Identifier { name: IdentifierType, namespace: IdentifierNamespace }`.
`IdentifierType` values render to strings; the embedding stores the rendered
name directly (the `ns` field embeds the Rust field named `namespace`,
which is a reserved word in Lean). -/
structure Identifier where
  name : String
  ns : IdentifierNamespace
deriving DecidableEq, Repr

/-- Mirrors `Identifier::new_prisma`. -/
def Identifier.new_prisma (name : String) : Identifier :=
  { name := name, ns := IdentifierNamespace.Prisma }

/-- Mirrors `Identifier::new_model`. -/
def Identifier.new_model (name : String) : Identifier :=
  { name := name, ns := IdentifierNamespace.Model }

/-! ## The type registry.

Modelled from the spec: the registry module (`db.rs`, `QuerySchemaDatabase`,
the `return_cached_input!` macro and `cache_input_type`) is not part of the
source snapshot; only its callers are (e.g.
`build/input_types/fields/field_filter_types.rs`).  Per spec §4.1,
`get_or_insert(identifier, constructor)` returns the cached instance if
present and otherwise runs the constructor once and registers the result.
The cache is an association list keyed by `Identifier`. -/

/-- Modelled from the spec: association-list registry keyed by `Identifier`. -/
def TypeCache (α : Type) : Type := List (Identifier × α)

/-- Modelled from the spec: cache lookup by identifier. -/
def TypeCache.lookup {α : Type} (c : TypeCache α) (ident : Identifier) : Option α :=
  (List.find? (fun e => e.1 = ident) c).map (fun e => e.2)

/-- Modelled from the spec: `get_or_insert(identifier, constructor)`.  Returns
the instance, the updated cache, and whether the constructor was run. -/
def TypeCache.getOrInsert {α : Type} (c : TypeCache α) (ident : Identifier)
    (constructor : Unit → α) : α × TypeCache α × Bool :=
  match c.lookup ident with
  | some v => (v, c, false)
  | none =>
      let v := constructor ()
      (v, (ident, v) :: c, true)

/-! ## Scalar types and type identifiers -/

/-- Mirrors `enum ScalarType` in `query_schema.rs`. -/
inductive ScalarType where
  | Null
  | String
  | Int
  | BigInt
  | Float
  | Decimal
  | Boolean
  | DateTime
  | Json
  | JsonList
  | UUID
  | Xml
  | Bytes
deriving DecidableEq, Repr

/-- Mirrors `ScalarType`'s `Display` impl. -/
def renderScalarType : ScalarType → String
  | .Null => "Null"
  | .String => "String"
  | .Int => "Int"
  | .BigInt => "BigInt"
  | .Boolean => "Boolean"
  | .Float => "Float"
  | .Decimal => "Decimal"
  | .DateTime => "DateTime"
  | .Json => "Json"
  | .UUID => "UUID"
  | .JsonList => "Json"
  | .Xml => "Xml"
  | .Bytes => "Bytes"

/-- Mirrors `prisma_models::TypeIdentifier` as used by the builder. -/
inductive TypeIdentifier where
  | String
  | UUID
  | Int
  | BigInt
  | Float
  | Decimal
  | DateTime
  | Json
  | Boolean
  | Xml
  | Bytes
  | Enum (name : String)
  | Unsupported
deriving DecidableEq, Repr

/-- Mirrors `TypeIdentifier::is_numeric`. -/
def isNumericType : TypeIdentifier → Bool
  | .Int | .BigInt | .Float | .Decimal => true
  | _ => false

/-- Rendered type name of a `TypeIdentifier` (mirrors `type_name`). -/
def typeIdentifierName : TypeIdentifier → String
  | .String => "String"
  | .UUID => "UUID"
  | .Int => "Int"
  | .BigInt => "BigInt"
  | .Float => "Float"
  | .Decimal => "Decimal"
  | .DateTime => "DateTime"
  | .Json => "Json"
  | .Boolean => "Boolean"
  | .Xml => "Xml"
  | .Bytes => "Bytes"
  | .Enum n => n
  | .Unsupported => "Unsupported"

/-! ## Data model (`prisma_models` view consumed by the builder) -/

/-- Scalar model field, with the projections the builder reads
(`name`, `type_identifier`, `is_unique`, `is_required`, `is_list`). -/
structure ScalarFieldM where
  name : String
  typeId : TypeIdentifier
  isUnique : Bool
  isRequired : Bool
  isList : Bool
deriving DecidableEq, Repr

/-- Relation model field (`name`, `related_model`, `is_list`, `is_required`). -/
structure RelationFieldM where
  name : String
  relatedModel : String
  isList : Bool
  isRequired : Bool
deriving DecidableEq, Repr

/-- Composite model field (`name`, composite type name, `is_list`, `is_required`). -/
structure CompositeFieldM where
  name : String
  typeName : String
  isList : Bool
  isRequired : Bool
deriving DecidableEq, Repr

/-- Mirrors `prisma_models::Field` (`ModelField` in the builder). -/
inductive ModelFieldM where
  | scalar (sf : ScalarFieldM)
  | relation (rf : RelationFieldM)
  | composite (cf : CompositeFieldM)
deriving DecidableEq, Repr

/-- `ModelField::name`. -/
def modelFieldName : ModelFieldM → String
  | .scalar sf => sf.name
  | .relation rf => rf.name
  | .composite cf => cf.name

/-- `ModelField::is_scalar() && ModelField::is_unique()` as used by
`where_unique_object_type`'s partition. -/
def isUniqueScalar : ModelFieldM → Bool
  | .scalar sf => sf.isUnique
  | _ => false

/-- A `@@unique` index as seen through `walkers::IndexWalker`
(`name()` and `fields()` rendered to field names). -/
structure IndexM where
  name : Option String
  fields : List String
deriving DecidableEq, Repr

/-- A `@@id` primary key as seen through `walkers::PrimaryKeyWalker`. -/
structure PrimaryKeyM where
  name : Option String
  fields : List String
deriving DecidableEq, Repr

/-- A model of the data model, with the projections the builder reads.
The `supportsCreate` flag embeds `Model::supports_create_operation`; the
four `has*Args` flags embed whether the corresponding argument builders in
`build/input_types/fields/arguments.rs` and `build/mutations` (not part of
the source snapshot; modelled from the spec as abstract availability flags)
return `Some` arguments for this model. -/
structure ModelM where
  name : String
  fields : List ModelFieldM
  uniqueIndexes : List IndexM
  primaryKey : Option PrimaryKeyM
  supportsCreate : Bool
  hasUpsertArgs : Bool
  hasCreateManyArgs : Bool
  hasDeleteOneArgs : Bool
  hasUpdateOneArgs : Bool
deriving DecidableEq, Repr

/-- Composite type container. -/
structure CompositeTypeM where
  name : String
  fields : List ModelFieldM
deriving DecidableEq, Repr

/-- Mirrors `prisma_models::ParentContainer`. -/
inductive ParentContainer where
  | model (m : ModelM)
  | compositeType (ct : CompositeTypeM)
deriving DecidableEq, Repr

/-- `ParentContainer::fields()`. -/
def containerFields : ParentContainer → List ModelFieldM
  | .model m => m.fields
  | .compositeType ct => ct.fields

/-- `ParentContainer::name()` (used when rendering identifiers). -/
def containerName : ParentContainer → String
  | .model m => m.name
  | .compositeType ct => ct.name

/-! ## Capability / feature configuration (spec §6, `psl` crate) -/

/-- The `psl::PreviewFeature`s consulted by the embedded builder code. -/
inductive PreviewFeature where
  | ExtendedWhereUnique
  | FullTextSearch
  | FieldReference
  | OrderByNulls
deriving DecidableEq, Repr

/-- The `psl::datamodel_connector::ConnectorCapability`s consulted by the
embedded builder code. -/
inductive ConnectorCapability where
  | FullTextSearchWithoutIndex
  | FullTextSearchWithIndex
  | JsonFilteringJsonPath
  | JsonFilteringArrayPath
  | JsonFilteringAlphanumeric
  | JsonFilteringAlphanumericFieldRef
  | AdvancedJsonNullability
  | UndefinedType
  | ScalarLists
  | InsensitiveFilters
  | OrderByNullsFirstLast
  | SqlQueryRaw
  | MongoDbQueryRaw
deriving DecidableEq, Repr

/-- Mirrors `BuilderContext` (`build.rs`): the fixed capability/feature
configuration consulted throughout a build.  `stringFilters` embeds
`connector.string_filters(..)` (connector-specific string operator names,
e.g. contains/startsWith/endsWith). -/
structure BuilderCtx where
  features : List PreviewFeature
  capabilities : List ConnectorCapability
  enableRawQueries : Bool
  stringFilters : List String
deriving DecidableEq, Repr

/-- `BuilderContext::has_feature`. -/
def BuilderCtx.hasFeature (ctx : BuilderCtx) (f : PreviewFeature) : Bool :=
  ctx.features.contains f

/-- `BuilderContext::has_capability`. -/
def BuilderCtx.hasCapability (ctx : BuilderCtx) (c : ConnectorCapability) : Bool :=
  ctx.capabilities.contains c

/-- `BuilderContext::supports_any`. -/
def BuilderCtx.supportsAny (ctx : BuilderCtx) (cs : List ConnectorCapability) : Bool :=
  cs.any (fun c => ctx.hasCapability c)

/-- `BuilderContext::can_full_text_search`. -/
def BuilderCtx.canFullTextSearch (ctx : BuilderCtx) : Bool :=
  ctx.hasFeature .FullTextSearch &&
    (ctx.hasCapability .FullTextSearchWithoutIndex ||
      ctx.hasCapability .FullTextSearchWithIndex)

/-! ## Input types (`input_types.rs`), arena style: object references are
`Identifier` cache keys, as in the id-addressed design. -/

/-- Mirrors `enum InputType { Scalar, Enum, List, Object }`; the `Object`
arm holds the referenced object's cache `Identifier` (arena key). -/
inductive InputType where
  | scalar (t : ScalarType)
  | enum (name : String)
  | list (inner : InputType)
  | object (ident : Identifier)
deriving DecidableEq, Repr

/-- Mirrors `enum ObjectTag`. -/
inductive ObjectTag where
  | CompositeEnvelope
  | RelationEnvelope
  | FieldRefType (allow : InputType)
  | WhereInputType (container : ParentContainer)
  | NestedToOneUpdateEnvelope
deriving DecidableEq, Repr

/-- Mirrors `struct InputObjectTypeConstraints`. -/
structure InputObjectTypeConstraints where
  min_num_fields : Option Nat := none
  max_num_fields : Option Nat := none
  fields : Option (List String) := none
deriving DecidableEq, Repr

/-- Mirrors `struct InputField` (default values rendered to strings). -/
structure InputField where
  name : String
  fieldTypes : List InputType
  isRequired : Bool
  defaultValue : Option String := none
deriving DecidableEq, Repr

/-- Mirrors `input_field` in `build/utils.rs`: a required field over a
declared type union. -/
def inputField (name : String) (fieldTypes : List InputType)
    (defaultValue : Option String) : InputField :=
  { name := name, fieldTypes := fieldTypes, isRequired := true,
    defaultValue := defaultValue }

/-- Mirrors `simple_input_field`: an input field with a single possible type. -/
def simpleInputField (name : String) (fieldType : InputType)
    (defaultValue : Option String) : InputField :=
  inputField name [fieldType] defaultValue

/-- Mirrors `InputField::optional`. -/
def InputField.optional (f : InputField) : InputField :=
  { f with isRequired := false }

/-- Mirrors `InputField::optional_if`. -/
def InputField.optional_if (f : InputField) (condition : Bool) : InputField :=
  if condition then f.optional else f

/-- Mirrors `InputField::nullable` (`add_type(InputType::null())`). -/
def InputField.nullable (f : InputField) : InputField :=
  { f with fieldTypes := f.fieldTypes ++ [InputType.scalar ScalarType.Null] }

/-- Mirrors `InputField::nullable_if`. -/
def InputField.nullable_if (f : InputField) (condition : Bool) : InputField :=
  if condition then f.nullable else f

/-- Mirrors `struct InputObjectType` with the field list materialized
(the source computes it through a once-evaluated closure / arena slot). -/
structure InputObjectType where
  identifier : Identifier
  constraints : InputObjectTypeConstraints
  fields : List InputField
  tag : Option ObjectTag
deriving DecidableEq, Repr

/-- Mirrors `init_input_object_type` in `build/utils.rs`. -/
def initInputObjectType (ident : Identifier) : InputObjectType :=
  { identifier := ident, constraints := {}, fields := [], tag := none }

/-- Mirrors `InputObjectType::set_max_fields`. -/
def InputObjectType.set_max_fields (o : InputObjectType) (max : Nat) : InputObjectType :=
  { o with constraints := { o.constraints with max_num_fields := some max } }

/-- Mirrors `InputObjectType::set_min_fields`. -/
def InputObjectType.set_min_fields (o : InputObjectType) (min : Nat) : InputObjectType :=
  { o with constraints := { o.constraints with min_num_fields := some min } }

/-- Mirrors `InputObjectType::require_exactly_one_field`
(`set_max_fields(1); set_min_fields(1)`). -/
def InputObjectType.require_exactly_one_field (o : InputObjectType) : InputObjectType :=
  (o.set_max_fields 1).set_min_fields 1

/-- Mirrors `InputObjectType::require_at_least_one_field` (`set_min_fields(1)`). -/
def InputObjectType.require_at_least_one_field (o : InputObjectType) : InputObjectType :=
  o.set_min_fields 1

/-- Mirrors `InputObjectType::require_at_most_one_field`
(`set_max_fields(1); set_min_fields(0)`). -/
def InputObjectType.require_at_most_one_field (o : InputObjectType) : InputObjectType :=
  (o.set_max_fields 1).set_min_fields 0

/-- Mirrors `InputObjectType::apply_constraints_on_fields`. -/
def InputObjectType.apply_constraints_on_fields (o : InputObjectType)
    (fields : List String) : InputObjectType :=
  { o with constraints := { o.constraints with fields := some fields } }

/-- Mirrors `InputObjectType::set_tag`. -/
def InputObjectType.set_tag (o : InputObjectType) (tag : ObjectTag) : InputObjectType :=
  { o with tag := some tag }

/-- Mirrors `InputObjectType::set_fields`. -/
def InputObjectType.set_fields (o : InputObjectType) (fields : List InputField) :
    InputObjectType :=
  { o with fields := fields }

/-- Mirrors `InputObjectType::find_field`. -/
def InputObjectType.find_field (o : InputObjectType) (name : String) : Option InputField :=
  o.fields.find? (fun f => f.name = name)

/-- Mirrors `list_union_type(t, true)` (`[t, InputType::list(t)]` shorthand
union used for list inputs). -/
def listUnionType (t : InputType) : List InputType :=
  [t, InputType.list t]

/-! ## Identifier rendering for builder-generated types.

`identifier_type.rs` (the `IdentifierType` renderer) is not part of the
source snapshot; the renderings below are modelled from the spec's naming of
the generated types.  Only injectivity per type family matters to the
claims, never the exact strings. -/

/-- Modelled from the spec: rendering of `IdentifierType::WhereInput(container)`
(`identifier_type.rs` is missing from the snapshot). -/
def whereInputIdentOf (name : String) : Identifier :=
  Identifier.new_prisma (name ++ "WhereInput")

/-- `IdentifierType::WhereInput` for a container. -/
def whereInputIdent (c : ParentContainer) : Identifier :=
  whereInputIdentOf (containerName c)

/-- Modelled from the spec: rendering of `IdentifierType::WhereUniqueInput(model)`. -/
def whereUniqueInputIdent (m : ModelM) : Identifier :=
  Identifier.new_prisma (m.name ++ "WhereUniqueInput")

/-- Modelled from the spec: rendering of
`IdentifierType::ToManyRelationFilterInput(related_model)`. -/
def toManyRelationFilterIdent (relatedModel : String) : Identifier :=
  Identifier.new_prisma (relatedModel ++ "ListRelationFilter")

/-- Modelled from the spec: rendering of
`IdentifierType::ToOneRelationFilterInput(related_model, arity)`. -/
def toOneRelationFilterIdent (relatedModel : String) (isRequired : Bool) : Identifier :=
  Identifier.new_prisma
    (relatedModel ++ (if isRequired then "" else "Nullable") ++ "RelationFilter")

/-- Modelled from the spec: rendering of
`IdentifierType::ToOneCompositeFilterInput(typ, arity)`. -/
def toOneCompositeFilterIdent (typeName : String) (isRequired : Bool) : Identifier :=
  Identifier.new_prisma
    (typeName ++ (if isRequired then "" else "Nullable") ++ "CompositeFilter")

/-- Modelled from the spec: rendering of
`IdentifierType::ToManyCompositeFilterInput(typ)`. -/
def toManyCompositeFilterIdent (typeName : String) : Identifier :=
  Identifier.new_prisma (typeName ++ "CompositeListFilter")

/-- Mirrors the identifier of `composite_equality_object`
(`format!("{}ObjectEqualityInput", cf.typ().name())`). -/
def compositeEqualityIdent (typeName : String) : Identifier :=
  Identifier.new_prisma (typeName ++ "ObjectEqualityInput")

/-- Modelled from the spec: rendering of
`IdentifierType::ScalarListFilterInput(type, required)`. -/
def scalarListFilterIdent (typ : TypeIdentifier) (isRequired : Bool) : Identifier :=
  Identifier.new_prisma
    (typeIdentifierName typ ++ (if isRequired then "" else "Nullable") ++ "ListFilter")

/-- Modelled from the spec: `scalar_filter_name(typ, list, nullable, nested,
include_aggregates)` (defined in a module missing from the snapshot);
renders e.g. `NestedStringNullableFilter`, `IntWithAggregatesFilter`. -/
def scalarFilterName (typ : String) (list nullable nested includeAggregates : Bool) :
    String :=
  (if nested then "Nested" else "") ++ typ ++ (if nullable then "Nullable" else "")
    ++ (if list then "List" else "")
    ++ (if includeAggregates then "WithAggregates" else "") ++ "Filter"

/-- The cache identifier of `full_scalar_filter_type`. -/
def scalarFilterIdent (typ : String) (list nullable nested includeAggregates : Bool) :
    Identifier :=
  Identifier.new_prisma (scalarFilterName typ list nullable nested includeAggregates)

/-- Modelled from the spec: `map_scalar_input_type` (the scalar input-type
mapper module is missing from the snapshot); maps a `TypeIdentifier` to the
corresponding scalar/enum input type, wrapped in a list when `list` holds. -/
def mapScalarInputType (typ : TypeIdentifier) (list : Bool) : InputType :=
  let base : InputType :=
    match typ with
    | .String => .scalar .String
    | .UUID => .scalar .UUID
    | .Int => .scalar .Int
    | .BigInt => .scalar .BigInt
    | .Float => .scalar .Float
    | .Decimal => .scalar .Decimal
    | .DateTime => .scalar .DateTime
    | .Json => .scalar .Json
    | .Boolean => .scalar .Boolean
    | .Xml => .scalar .Xml
    | .Bytes => .scalar .Bytes
    | .Enum n => .enum n
    | .Unsupported => .scalar .Null
  if list then .list base else base

/-- Mirrors `map_scalar_input_type_for_field`. -/
def mapScalarInputTypeForField (sf : ScalarFieldM) : InputType :=
  mapScalarInputType sf.typeId sf.isList

/-- Mirrors `InputType::is_json`. -/
def isJsonInput : InputType → Bool
  | .scalar .Json => true
  | .scalar .JsonList => true
  | _ => false

/-- Mirrors `field_ref_input_type_name` in `field_ref_type.rs` (the
`unreachable!` arms render to a marker string, they are never hit by the
embedded callers). -/
def fieldRefInputTypeName : InputType → String
  | .scalar s => renderScalarType s ++ "FieldRefInput"
  | .enum e => "Enum" ++ e ++ "FieldRefInput"
  | .list inner => "List" ++ fieldRefInputTypeName inner
  | .object _ => "UnreachableFieldRefInput"

/-- The cache identifier of `field_ref_input_object_type`. -/
def fieldRefIdent (allowType : InputType) : Identifier :=
  Identifier.new_prisma (fieldRefInputTypeName allowType)

/-- Mirrors `WithFieldRefInputExt::with_field_ref_input`: the type itself,
plus a field-reference envelope object when the `fieldReference` preview
feature is enabled. -/
def withFieldRefInput (ctx : BuilderCtx) (t : InputType) : List InputType :=
  [t] ++ (if ctx.hasFeature .FieldReference then [InputType.object (fieldRefIdent t)] else [])

/-! ## Scalar filter objects (`build/input_types/fields/field_filter_types.rs`) -/

/-- Mirrors `is_set_input_field`. -/
def isSetInputField : InputField :=
  (inputField "isSet" [InputType.scalar .Boolean] none).optional

/-- Mirrors `equality_filters`. -/
def equalityFilters (ctx : BuilderCtx) (mappedType : InputType) (nullable : Bool) :
    List InputField :=
  [((inputField "equals" (withFieldRefInput ctx mappedType) none).optional).nullable_if
      nullable]

/-- Mirrors `json_equality_filters`. -/
def jsonEqualityFilters (ctx : BuilderCtx) (mappedType : InputType) (nullable : Bool) :
    List InputField :=
  if ctx.hasCapability .AdvancedJsonNullability then
    [(inputField "equals"
        (withFieldRefInput ctx mappedType ++ [InputType.enum "JsonNullValueFilter"])
        none).optional]
  else
    [((inputField "equals" (withFieldRefInput ctx mappedType) none).optional).nullable_if
        nullable]

/-- Mirrors `inclusion_filters` (`in` / `notIn`, with the scalar shorthand
appended to the declared union). -/
def inclusionFilters (ctx : BuilderCtx) (mappedType : InputType) (nullable : Bool) :
    List InputField :=
  let inputTypeL := InputType.list mappedType
  let fieldTypes :=
    (if ctx.hasCapability .ScalarLists then withFieldRefInput ctx inputTypeL
     else [inputTypeL]) ++ [mappedType]
  [((inputField "in" fieldTypes none).optional).nullable_if nullable,
   ((inputField "notIn" fieldTypes none).optional).nullable_if nullable]

/-- Mirrors `alphanumeric_filters` (`lt` / `lte` / `gt` / `gte`). -/
def alphanumericFilters (ctx : BuilderCtx) (mappedType : InputType) : List InputField :=
  let fieldTypes :=
    if !isJsonInput mappedType
        || ctx.hasCapability .JsonFilteringAlphanumericFieldRef then
      withFieldRefInput ctx mappedType
    else [mappedType]
  [(inputField "lt" fieldTypes none).optional,
   (inputField "lte" fieldTypes none).optional,
   (inputField "gt" fieldTypes none).optional,
   (inputField "gte" fieldTypes none).optional]

/-- Mirrors `string_filters`: connector-provided string operators plus the
full-text `search` operator when feature and capability allow. -/
def stringOperatorFilters (ctx : BuilderCtx) (mappedType : InputType) : List InputField :=
  let fieldTypes := withFieldRefInput ctx mappedType
  (ctx.stringFilters.map (fun n => (inputField n fieldTypes none).optional))
    ++ (if ctx.canFullTextSearch then [(inputField "search" [mappedType] none).optional]
        else [])

/-- Mirrors `json_filters` (`path` plus string/array JSON operators); only
called under the JSON-path capability guard, so the `unreachable!` arm of the
path type renders to `Null`. -/
def jsonFilters (ctx : BuilderCtx) : List InputField :=
  let pathType :=
    if ctx.hasCapability .JsonFilteringJsonPath then InputType.scalar .String
    else if ctx.hasCapability .JsonFilteringArrayPath then
      InputType.list (InputType.scalar .String)
    else InputType.scalar .Null
  let stringWithRef := withFieldRefInput ctx (InputType.scalar .String)
  let jsonWithRef := withFieldRefInput ctx (InputType.scalar .Json)
  [(inputField "path" [pathType] none).optional,
   (inputField "string_contains" stringWithRef none).optional,
   (inputField "string_starts_with" stringWithRef none).optional,
   (inputField "string_ends_with" stringWithRef none).optional,
   ((inputField "array_contains" jsonWithRef none).optional).nullable,
   ((inputField "array_starts_with" jsonWithRef none).optional).nullable,
   ((inputField "array_ends_with" jsonWithRef none).optional).nullable]

/-- Mirrors `query_mode_field` (topmost level + insensitive-filter capable). -/
def queryModeField (ctx : BuilderCtx) (nested : Bool) : List InputField :=
  if !nested && ctx.hasCapability .InsensitiveFilters then
    [(inputField "mode" [InputType.enum "QueryMode"] (some "default")).optional]
  else []

/-- Mirrors `map_avg_type_ident`. -/
def mapAvgTypeIdent (typ : TypeIdentifier) : TypeIdentifier :=
  match typ with
  | .Int | .BigInt | .Float => .Float
  | _ => typ

/-- Mirrors `aggregate_filter_field`: references the nested
`full_scalar_filter_type(typ, None, list, nullable, true, false)` object by
its cache identifier. -/
def aggregateFilterField (aggregation : String) (typ : TypeIdentifier)
    (nullable list : Bool) : InputField :=
  (inputField aggregation
    [InputType.object (scalarFilterIdent (typeIdentifierName typ) list nullable true false)]
    none).optional

/-- Mirrors `not_filter_field`: the shorthand `not` filter, recursing (by
cache identifier) into the same nested filter type for non-JSON kinds. -/
def notFilterField (ctx : BuilderCtx) (typ : TypeIdentifier)
    (mappedScalarType : InputType) (isNullable includeAggregates isList : Bool) :
    InputField :=
  match typ with
  | .Json =>
      if ctx.hasCapability .AdvancedJsonNullability then
        (inputField "not"
          (withFieldRefInput ctx mappedScalarType ++ [InputType.enum "JsonNullValueFilter"])
          none).optional
      else
        ((inputField "not" (withFieldRefInput ctx mappedScalarType) none).optional).nullable_if
          isNullable
  | _ =>
      let shorthand := InputType.object
        (scalarFilterIdent (typeIdentifierName typ) isList isNullable true includeAggregates)
      ((inputField "not" [mappedScalarType, shorthand] none).optional).nullable_if isNullable

/-- The per-scalar-kind arm of `full_scalar_filter_type`'s field `match`
(hoisted into its own definition). -/
def scalarFilterKindFields (ctx : BuilderCtx) (typ : TypeIdentifier)
    (nullable nested : Bool) (mappedScalarType : InputType) : List InputField :=
  match typ with
  | .String | .UUID =>
      equalityFilters ctx mappedScalarType nullable
        ++ inclusionFilters ctx mappedScalarType nullable
        ++ alphanumericFilters ctx mappedScalarType
        ++ stringOperatorFilters ctx mappedScalarType
        ++ queryModeField ctx nested
  | .Int | .BigInt | .Float | .DateTime | .Decimal =>
      equalityFilters ctx mappedScalarType nullable
        ++ inclusionFilters ctx mappedScalarType nullable
        ++ alphanumericFilters ctx mappedScalarType
  | .Json =>
      jsonEqualityFilters ctx mappedScalarType nullable
        ++ (if ctx.supportsAny [.JsonFilteringJsonPath, .JsonFilteringArrayPath] then
              jsonFilters ctx
                ++ (if ctx.hasCapability .JsonFilteringAlphanumeric then
                      alphanumericFilters ctx mappedScalarType
                    else [])
            else [])
  | .Boolean | .Xml => equalityFilters ctx mappedScalarType nullable
  | .Bytes | .Enum _ =>
      equalityFilters ctx mappedScalarType nullable
        ++ inclusionFilters ctx mappedScalarType nullable
  | .Unsupported => []

/-- Mirrors `full_scalar_filter_type` (field-list construction; the arena
registration is represented by the object's `Identifier`).  `none` embeds the
`unreachable!` on `TypeIdentifier::Unsupported`. -/
def fullScalarFilterType (ctx : BuilderCtx) (typ : TypeIdentifier)
    (list nullable nested includeAggregates : Bool) : Option InputObjectType :=
  if typ = .Unsupported then none
  else
    let typeName := typeIdentifierName typ
    let ident := scalarFilterIdent typeName list nullable nested includeAggregates
    let mappedScalarType := mapScalarInputType typ list
    let fields : List InputField :=
      scalarFilterKindFields ctx typ nullable nested mappedScalarType
    let fields := fields
      ++ [notFilterField ctx typ mappedScalarType nullable includeAggregates list]
    let fields := fields
      ++ (if includeAggregates then
            [aggregateFilterField "_count" .Int nullable list]
              ++ (if isNumericType typ then
                    [aggregateFilterField "_avg" (mapAvgTypeIdent typ) nullable list,
                     aggregateFilterField "_sum" typ nullable list]
                  else [])
              ++ (if !list then
                    [aggregateFilterField "_min" typ nullable list,
                     aggregateFilterField "_max" typ nullable list]
                  else [])
          else [])
    let fields := fields
      ++ (if ctx.hasCapability .UndefinedType && (list || nullable) then [isSetInputField]
          else [])
    some (((initInputObjectType ident).set_fields fields))

/-- Mirrors `get_field_filter_types` (filter types for a model field, with
object references by cache identifier). -/
def getFieldFilterTypes (ctx : BuilderCtx) (field : ModelFieldM)
    (includeAggregates : Bool) : List InputType :=
  match field with
  | .relation rf =>
      if rf.isList then [InputType.object (toManyRelationFilterIdent rf.relatedModel)]
      else
        [InputType.object (toOneRelationFilterIdent rf.relatedModel rf.isRequired),
         InputType.object (whereInputIdentOf rf.relatedModel)]
  | .composite cf =>
      if cf.isList then
        [InputType.object (toManyCompositeFilterIdent cf.typeName),
         InputType.list (InputType.object (compositeEqualityIdent cf.typeName)),
         InputType.object (compositeEqualityIdent cf.typeName)]
      else
        [InputType.object (toOneCompositeFilterIdent cf.typeName cf.isRequired),
         InputType.object (compositeEqualityIdent cf.typeName)]
  | .scalar sf =>
      if sf.isList then [InputType.object (scalarListFilterIdent sf.typeId sf.isRequired)]
      else
        [InputType.object
            (scalarFilterIdent (typeIdentifierName sf.typeId) sf.isList (!sf.isRequired)
              false includeAggregates)]
          ++ (if sf.typeId ≠ TypeIdentifier.Json then [mapScalarInputTypeForField sf]
              else [])

/-- Modelled from the spec: `input_fields::filter_input_field` (its module is
missing from the snapshot); an optional filter field named after the model
field, over the filter types of `get_field_filter_types`. -/
def filterInputField (ctx : BuilderCtx) (field : ModelFieldM)
    (includeAggregates : Bool) : InputField :=
  (inputField (modelFieldName field) (getFieldFilterTypes ctx field includeAggregates)
    none).optional

/-! ## `WhereInput` objects (`build/input_types/objects/filter_objects.rs`) -/

/-- The AND/OR/NOT boolean-operator fields over a given self-referencing
object type, exactly as `where_object_type` / `scalar_filter_object_type` /
`where_unique_object_type` build them: `AND` and `NOT` take the object or a
list of it, `OR` takes only a list of it. -/
def booleanOperatorFields (objectType : InputType) : List InputField :=
  [(inputField "AND" [objectType, InputType.list objectType] none).optional,
   (inputField "OR" [InputType.list objectType] none).optional,
   (inputField "NOT" [objectType, InputType.list objectType] none).optional]

/-- Mirrors `where_object_type`: the boolean-combinable filter object of a
container; the recursive self-reference is the object's own cache identifier. -/
def whereObjectType (ctx : BuilderCtx) (container : ParentContainer) : InputObjectType :=
  let ident := whereInputIdent container
  let objectType := InputType.object ident
  let fields := booleanOperatorFields objectType
    ++ (containerFields container).map (fun f => filterInputField ctx f false)
  (((initInputObjectType ident).set_tag (ObjectTag.WhereInputType container)).set_fields
    fields)

/-- Mirrors `scalar_filter_object_type`: like `where_object_type`, but keeps
only scalar fields and may include aggregate filters. -/
def scalarFilterObjectType (ctx : BuilderCtx) (model : ModelM)
    (includeAggregates : Bool) : InputObjectType :=
  let ident := Identifier.new_prisma
    (model.name ++ "ScalarWhereInput" ++ (if includeAggregates then "WithAggregates" else ""))
  let objectType := InputType.object ident
  let fields := booleanOperatorFields objectType
    ++ model.fields.filterMap (fun f =>
        match f with
        | .scalar _ => some (filterInputField ctx f includeAggregates)
        | .relation _ => none
        | .composite _ => none)
  (((initInputObjectType ident).set_tag
      (ObjectTag.WhereInputType (ParentContainer.model model))).set_fields fields)

/-- Mirrors `compound_index_field_name` in `build/utils.rs`. -/
def compoundIndexFieldName (index : IndexM) : String :=
  index.name.getD (String.intercalate "_" index.fields)

/-- Mirrors `compound_id_field_name` in `build/utils.rs`. -/
def compoundIdFieldName (pk : PrimaryKeyM) : String :=
  pk.name.getD (String.intercalate "_" pk.fields)

/-- Modelled from the spec: `compound_object_name(alias, fields)` (missing
from the snapshot); the alias if present, else the concatenated field names. -/
def compoundObjectName (idxAlias : Option String) (fields : List String) : String :=
  idxAlias.getD (String.join fields)

/-- The cache identifier of `compound_field_unique_object_type`
(`format!("{}{}CompoundUniqueInput", model.name(), compound_object_name(..))`). -/
def compoundUniqueIdent (model : ModelM) (idxAlias : Option String)
    (fields : List String) : Identifier :=
  Identifier.new_prisma (model.name ++ compoundObjectName idxAlias fields
    ++ "CompoundUniqueInput")

/-- Looks up a scalar field of a model by name (embeds the
`ScalarFieldRef::from((dm, f))` resolution of index/id walker fields). -/
def findScalarField (model : ModelM) (name : String) : Option ScalarFieldM :=
  model.fields.firstM (fun f =>
    match f with
    | .scalar sf => if sf.name = name then some sf else none
    | _ => none)

/-- Mirrors `compound_field_unique_object_type`: one required input field per
constituent scalar field. -/
def compoundFieldUniqueObjectType (model : ModelM) (idxAlias : Option String)
    (fieldNames : List String) : InputObjectType :=
  let ident := compoundUniqueIdent model idxAlias fieldNames
  let fields := fieldNames.filterMap (fun n =>
    (findScalarField model n).map (fun sf =>
      simpleInputField sf.name (mapScalarInputTypeForField sf) none))
  ((initInputObjectType ident).set_fields fields)

/-- Mirrors `where_unique_object_type`: unique/id scalar fields, compound
unique/id objects, the `ExtendedWhereUnique`-selected cardinality constraint,
and — in extended mode only — the boolean operators plus the remaining
filter fields. -/
def whereUniqueObjectType (ctx : BuilderCtx) (model : ModelM) : InputObjectType :=
  let ident := whereUniqueInputIdent model
  -- Split unique & ID fields vs all the other fields.
  let uniqueFields := model.fields.filter isUniqueScalar
  let restFields := model.fields.filter (fun f => !isUniqueScalar f)
  -- @@unique compound fields.
  let compoundUniques : List (String × Identifier) :=
    (model.uniqueIndexes.filter (fun idx => idx.fields.length > 1)).map (fun idx =>
      (compoundIndexFieldName idx, compoundUniqueIdent model idx.name idx.fields))
  -- @@id compound field (there can be only one per model).
  let compoundId : Option (String × Identifier) :=
    (model.primaryKey.bind (fun pk =>
      if pk.fields.length > 1 then
        some (compoundIdFieldName pk, compoundUniqueIdent model pk.name pk.fields)
      else none))
  let constrainedFields : List String :=
    uniqueFields.map modelFieldName ++ compoundUniques.map Prod.fst
      ++ (compoundId.map Prod.fst).toList
  let base := initInputObjectType ident
  let base :=
    if ctx.hasFeature .ExtendedWhereUnique then
      (base.require_at_least_one_field).apply_constraints_on_fields constrainedFields
    else
      base.require_exactly_one_field
  let uniqueInputFields := uniqueFields.filterMap (fun f =>
    match f with
    | .scalar sf =>
        some ((simpleInputField sf.name (mapScalarInputTypeForField sf) none).optional)
    | _ => none)
  let compoundUniqueFields := compoundUniques.map (fun p =>
    (simpleInputField p.1 (InputType.object p.2) none).optional)
  let compoundIdField := (compoundId.map (fun p =>
    (simpleInputField p.1 (InputType.object p.2) none).optional)).toList
  let whereInputType := InputType.object (whereInputIdentOf model.name)
  let booleanOperators := booleanOperatorFields whereInputType
  let restFilterFields := restFields.map (fun f => filterInputField ctx f false)
  let fields := uniqueInputFields ++ compoundUniqueFields ++ compoundIdField
    ++ (if ctx.hasFeature .ExtendedWhereUnique then booleanOperators ++ restFilterFields
        else [])
  base.set_fields fields

/-! ## `OrderByInput` objects (`build/input_types/objects/order_by_objects.rs`) -/

/-- Mirrors `struct OrderByOptions`. -/
structure OrderByOptions where
  includeRelations : Bool := false
  includeScalarAggregations : Bool := false
  includeFullTextSearch : Bool := false
deriving DecidableEq, Repr

/-- Mirrors `OrderByOptions::type_suffix`. -/
def orderByTypeSuffix (options : OrderByOptions) : String :=
  match options.includeRelations, options.includeScalarAggregations,
      options.includeFullTextSearch with
  | true, false, false => "WithRelation"
  | false, true, false => "WithAggregation"
  | true, false, true => "WithRelationAndSearchRelevance"
  | _, _, _ => ""

/-- Modelled from the spec: rendering of
`IdentifierType::OrderByInput(container, suffix)`. -/
def orderByInputIdent (name : String) (suffix : String) : Identifier :=
  Identifier.new_prisma (name ++ "OrderBy" ++ suffix ++ "Input")

/-- Modelled from the spec: rendering of
`IdentifierType::OrderByAggregateInput(container, suffix)`. -/
def orderByAggregateIdent (name : String) (suffix : String) : Identifier :=
  Identifier.new_prisma (name ++ "OrderBy" ++ suffix ++ "AggregateInput")

/-- Modelled from the spec: rendering of
`IdentifierType::OrderByToManyAggregateInput(container)`. -/
def orderByToManyAggregateIdent (name : String) : Identifier :=
  Identifier.new_prisma (name ++ "OrderByToManyAggregateInput")

/-- Modelled from the spec: rendering of
`IdentifierType::OrderByRelevanceInput(container)`. -/
def orderByRelevanceIdent (name : String) : Identifier :=
  Identifier.new_prisma (name ++ "OrderByRelevanceInput")

/-- Mirrors `sort_order_enum` (the `SortOrder` enum input type). -/
def sortOrderEnum : InputType :=
  InputType.enum "SortOrder"

/-- Mirrors `sort_nulls_object_type` (the `SortOrderInput` object). -/
def sortNullsObjectType : InputObjectType :=
  let ident := Identifier.new_prisma "SortOrderInput"
  ((initInputObjectType ident).set_fields
    [simpleInputField "sort" sortOrderEnum none,
     (simpleInputField "nulls" (InputType.enum "NullsOrder") none).optional])

/-- Mirrors `orderby_field_mapper`: one optional order-by field per model
field (relations only when requested; scalars may pair the sort enum with
the nulls-ordering object under feature+capability). -/
def orderbyFieldMapper (ctx : BuilderCtx) (options : OrderByOptions)
    (field : ModelFieldM) : Option InputField :=
  match field with
  | .relation rf =>
      if rf.isList && options.includeRelations then
        some ((simpleInputField rf.name
          (InputType.object (orderByToManyAggregateIdent rf.relatedModel)) none).optional)
      else if options.includeRelations then
        some ((simpleInputField rf.name
          (InputType.object (orderByInputIdent rf.relatedModel (orderByTypeSuffix options)))
          none).optional)
      else none
  | .scalar sf =>
      let types :=
        [sortOrderEnum]
          ++ (if ctx.hasFeature .OrderByNulls
                && ctx.hasCapability .OrderByNullsFirstLast
                && !sf.isRequired && !sf.isList then
                [InputType.object (Identifier.new_prisma "SortOrderInput")]
              else [])
      some ((inputField sf.name types none).optional)
  | .composite cf =>
      if cf.isList then
        some ((simpleInputField cf.name
          (InputType.object (orderByToManyAggregateIdent cf.typeName)) none).optional)
      else
        some ((simpleInputField cf.name
          (InputType.object (orderByInputIdent cf.typeName (orderByTypeSuffix {})))
          none).optional)

/-- Mirrors `collect_non_list_nor_json_fields` (`output_types/aggregation/mod.rs`). -/
def collectNonListNorJsonFields (container : ParentContainer) : List ScalarFieldM :=
  (containerFields container).filterMap (fun f =>
    match f with
    | .scalar sf => if !sf.isList && sf.typeId ≠ TypeIdentifier.Json then some sf else none
    | _ => none)

/-- Mirrors `collect_numeric_fields` (`output_types/aggregation/mod.rs`). -/
def collectNumericFields (container : ParentContainer) : List ScalarFieldM :=
  (containerFields container).filterMap (fun f =>
    match f with
    | .scalar sf => if isNumericType sf.typeId then some sf else none
    | _ => none)

/-- Mirrors `order_by_object_type_aggregate`: per-aggregation ordering
sub-object, requiring exactly one field. -/
def orderByObjectTypeAggregate (suffix : String) (container : ParentContainer)
    (scalarFields : List ScalarFieldM) : InputObjectType :=
  let ident := orderByAggregateIdent (containerName container) suffix
  (((initInputObjectType ident).require_exactly_one_field).set_fields
    (scalarFields.map (fun sf => (simpleInputField sf.name sortOrderEnum none).optional)))

/-- Mirrors `order_by_to_many_aggregate_object_type`: the count-only
to-many ordering sub-object, requiring exactly one field. -/
def orderByToManyAggregateObjectType (container : ParentContainer) : InputObjectType :=
  let ident := orderByToManyAggregateIdent (containerName container)
  (((initInputObjectType ident).require_exactly_one_field).set_fields
    [(simpleInputField "_count" sortOrderEnum none).optional])

/-- Mirrors `order_by_field_aggregate`: skipped when the field set is empty. -/
def orderByFieldAggregate (name : String) (suffix : String)
    (container : ParentContainer) (scalarFields : List ScalarFieldM) :
    Option InputField :=
  if scalarFields.isEmpty then none
  else
    some ((simpleInputField name
      (InputType.object (orderByAggregateIdent (containerName container) suffix))
      none).optional)

/-- Mirrors `compute_scalar_aggregation_fields`. -/
def computeScalarAggregationFields (container : ParentContainer) : List InputField :=
  let nonListNorJsonFields := collectNonListNorJsonFields container
  let numericFields := collectNumericFields container
  let scalarFields := (containerFields container).filterMap (fun f =>
    match f with
    | .scalar sf => some sf
    | _ => none)
  ([orderByFieldAggregate "_count" "Count" container scalarFields,
    orderByFieldAggregate "_avg" "Avg" container numericFields,
    orderByFieldAggregate "_max" "Max" container nonListNorJsonFields,
    orderByFieldAggregate "_min" "Min" container nonListNorJsonFields,
    orderByFieldAggregate "_sum" "Sum" container numericFields]).filterMap id

/-- Mirrors `order_by_field_text_search`: the `_relevance` ordering field over
the container's string fields, when any exist. -/
def orderByFieldTextSearch (container : ParentContainer) : Option InputField :=
  let scalarFields := (containerFields container).filterMap (fun f =>
    match f with
    | .scalar sf => if sf.typeId = TypeIdentifier.String then some sf else none
    | _ => none)
  if scalarFields.isEmpty then none
  else
    some ((simpleInputField "_relevance"
      (InputType.object (orderByRelevanceIdent (containerName container))) none).optional)

/-- Mirrors `order_by_object_type`: the `<Container>OrderBy<Suffix>Input`
object, constrained to at most one provided field. -/
def orderByObjectType (ctx : BuilderCtx) (container : ParentContainer)
    (options : OrderByOptions) : InputObjectType :=
  let ident := orderByInputIdent (containerName container) (orderByTypeSuffix options)
  let fields := (containerFields container).filterMap (fun field =>
      match field with
      | .composite _ =>
          if options.includeScalarAggregations then none
          else orderbyFieldMapper ctx options field
      | _ => orderbyFieldMapper ctx options field)
    ++ (if options.includeScalarAggregations then computeScalarAggregationFields container
        else [])
    ++ (if options.includeFullTextSearch then (orderByFieldTextSearch container).toList
        else [])
  (((initInputObjectType ident).require_at_most_one_field).set_fields fields)

/-! ## Output types (`output_types.rs`, `query_schema.rs`) -/

/-- Mirrors `enum QueryTag` in `query_schema.rs`. -/
inductive QueryTag where
  | FindUnique
  | FindUniqueOrThrow
  | FindFirst
  | FindFirstOrThrow
  | FindMany
  | CreateOne
  | CreateMany
  | UpdateOne
  | UpdateMany
  | DeleteOne
  | DeleteMany
  | UpsertOne
  | Aggregate
  | GroupBy
  | ExecuteRaw
  | QueryRaw
  | RunCommandRaw
  | FindRaw
  | AggregateRaw
deriving DecidableEq, Repr

/-- Mirrors `struct QueryInfo { model: Option<ModelRef>, tag: QueryTag }`
(the model projected to its name). -/
structure QueryInfo where
  model : Option String
  tag : QueryTag
deriving DecidableEq, Repr

/-- Mirrors `enum OutputType`: object references are arena identifiers. -/
inductive OutputType where
  | enum (name : String)
  | list (inner : OutputType)
  | object (ident : Identifier)
  | scalar (t : ScalarType)
deriving DecidableEq, Repr

/-- Mirrors `struct OutputField` (name, result type, argument list,
nullability flag, optional operation tag). -/
structure OutputField where
  name : String
  fieldType : OutputType
  arguments : List InputField
  isNullable : Bool
  queryInfo : Option QueryInfo
deriving DecidableEq, Repr

/-- Mirrors `field` in `build/utils.rs`. -/
def mkField (name : String) (arguments : List InputField) (fieldType : OutputType)
    (queryInfo : Option QueryInfo) : OutputField :=
  { name := name, arguments := arguments, fieldType := fieldType,
    queryInfo := queryInfo, isNullable := false }

/-- Mirrors `OutputField::nullable`. -/
def OutputField.nullable (f : OutputField) : OutputField :=
  { f with isNullable := true }

/-! ### `ObjectType` and its once-only field list (`output_types.rs`).

The source holds the output field list in a `once_cell::sync::OnceCell`:
`set_fields` does `self.fields.set(fields).unwrap()` and `get_fields` does
`self.fields.get().unwrap()`.  The cell is embedded as an `Option`, and the
two `unwrap` panics as an `Except` error of a dedicated `BuilderPanic` type,
structurally distinct from the user-facing validation errors. -/

/-- The fatal (programming-error) class of the schema phase; never part of
the user-facing validation error taxonomy. -/
inductive BuilderPanic where
  | uninitializedFields
  | refilledFields
deriving DecidableEq, Repr

/-- Mirrors `struct ObjectType` with the `OnceCell` embedded as an `Option`. -/
structure ObjectTypeM where
  identifier : Identifier
  fields : Option (List OutputField)
  model : Option String
deriving DecidableEq, Repr

/-- Mirrors `ObjectType::new`: the field cell starts unset. -/
def ObjectTypeM.new (ident : Identifier) (model : Option String) : ObjectTypeM :=
  { identifier := ident, fields := none, model := model }

/-- Mirrors `ObjectType::get_fields` (`self.fields.get().unwrap()`): reading
an unassigned field list is a fatal panic. -/
def ObjectTypeM.get_fields (o : ObjectTypeM) : Except BuilderPanic (List OutputField) :=
  match o.fields with
  | some fs => Except.ok fs
  | none => Except.error BuilderPanic.uninitializedFields

/-- Mirrors `ObjectType::set_fields` (`self.fields.set(fields).unwrap()`):
a second assignment is a fatal panic. -/
def ObjectTypeM.set_fields (o : ObjectTypeM) (fields : List OutputField) :
    Except BuilderPanic ObjectTypeM :=
  match o.fields with
  | some _ => Except.error BuilderPanic.refilledFields
  | none => Except.ok { o with fields := some fields }

/-! ## The root `Mutation` type (`build/output_types/mutation_type.rs`).

The per-model mutation fields are embedded at (name, tag, argument
availability) level: `create_one`/`create_many` live in `build/mutations`
and the argument builders in `arguments.rs`, both missing from the
snapshot, so their availability is the model's `has*Args` flags (see
`ModelM`); everything else mirrors `mutation_type.rs`. -/

/-- Modelled from the spec: `create_one(ctx, model)` (its module is missing
from the snapshot); per spec §4.2 a create-one field is built whenever
creation is supported. -/
def createOneField (model : ModelM) : OutputField :=
  mkField ("createOne" ++ model.name) [] (OutputType.object (Identifier.new_model model.name))
    (some { model := some model.name, tag := QueryTag.CreateOne })

/-- Modelled from the spec: `create_many(ctx, model)` availability flag. -/
def createManyField (model : ModelM) : Option OutputField :=
  if model.hasCreateManyArgs then
    some (mkField ("createMany" ++ model.name) []
      (OutputType.object (Identifier.new_prisma "AffectedRowsOutput"))
      (some { model := some model.name, tag := QueryTag.CreateMany }))
  else none

/-- Mirrors `upsert_item_field`: `arguments::upsert_arguments(..).map(..)`. -/
def upsertItemField (model : ModelM) : Option OutputField :=
  if model.hasUpsertArgs then
    some (mkField ("upsertOne" ++ model.name) []
      (OutputType.object (Identifier.new_model model.name))
      (some { model := some model.name, tag := QueryTag.UpsertOne }))
  else none

/-- Mirrors `delete_item_field`: `arguments::delete_one_arguments(..).map(..)`,
nullable. -/
def deleteItemField (model : ModelM) : Option OutputField :=
  if model.hasDeleteOneArgs then
    some ((mkField ("deleteOne" ++ model.name) []
      (OutputType.object (Identifier.new_model model.name))
      (some { model := some model.name, tag := QueryTag.DeleteOne })).nullable)
  else none

/-- Mirrors `update_item_field`: `arguments::update_one_arguments(..).map(..)`,
nullable. -/
def updateItemField (model : ModelM) : Option OutputField :=
  if model.hasUpdateOneArgs then
    some ((mkField ("updateOne" ++ model.name) []
      (OutputType.object (Identifier.new_model model.name))
      (some { model := some model.name, tag := QueryTag.UpdateOne })).nullable)
  else none

/-- Mirrors `update_many_field`. -/
def updateManyField (model : ModelM) : OutputField :=
  mkField ("updateMany" ++ model.name) []
    (OutputType.object (Identifier.new_prisma "AffectedRowsOutput"))
    (some { model := some model.name, tag := QueryTag.UpdateMany })

/-- Mirrors `delete_many_field`. -/
def deleteManyField (model : ModelM) : OutputField :=
  mkField ("deleteMany" ++ model.name) []
    (OutputType.object (Identifier.new_prisma "AffectedRowsOutput"))
    (some { model := some model.name, tag := QueryTag.DeleteMany })

/-- Mirrors `create_execute_raw_field`. -/
def createExecuteRawField : OutputField :=
  mkField "executeRaw"
    [inputField "query" [InputType.scalar .String] none,
     (inputField "parameters" [InputType.scalar .JsonList] (some "[]")).optional]
    (OutputType.scalar .Json) (some { model := none, tag := QueryTag.ExecuteRaw })

/-- Mirrors `create_query_raw_field`. -/
def createQueryRawField : OutputField :=
  mkField "queryRaw"
    [inputField "query" [InputType.scalar .String] none,
     (inputField "parameters" [InputType.scalar .JsonList] (some "[]")).optional]
    (OutputType.scalar .Json) (some { model := none, tag := QueryTag.QueryRaw })

/-- Mirrors `create_mongodb_run_command_raw`. -/
def createMongoDbRunCommandRaw : OutputField :=
  mkField "runCommandRaw" [inputField "command" [InputType.scalar .Json] none]
    (OutputType.scalar .Json) (some { model := none, tag := QueryTag.RunCommandRaw })

/-- The per-model portion of `mutation_type::build`'s field loop. -/
def mutationFieldsForModel (model : ModelM) : List OutputField :=
  (if model.supportsCreate then
      [createOneField model] ++ (upsertItemField model).toList
        ++ (createManyField model).toList
    else [])
    ++ (deleteItemField model).toList
    ++ (updateItemField model).toList
    ++ [updateManyField model, deleteManyField model]

/-- Mirrors `mutation_type::build`'s field list: the per-model loop followed
by the capability-gated raw-execution fields. -/
def mutationTypeFields (ctx : BuilderCtx) (models : List ModelM) : List OutputField :=
  models.flatMap mutationFieldsForModel
    ++ (if ctx.enableRawQueries && ctx.hasCapability .SqlQueryRaw then
          [createExecuteRawField, createQueryRawField]
        else [])
    ++ (if ctx.enableRawQueries && ctx.hasCapability .MongoDbQueryRaw then
          [createMongoDbRunCommandRaw]
        else [])

/-! ## Validation errors (`libs/user-facing-errors/src/query_engine/validation.rs`) -/

/-- Mirrors `enum ValidationErrorKind`, in source order — including the
`Union` variant and the source's spelling `UnkownArgument`. -/
inductive ValidationErrorKind where
  | EmptySelection
  | InvalidArgumentType
  | InvalidArgumentValue
  | SomeFieldsMissing
  | TooManyFieldsGiven
  | SelectionSetOnScalar
  | RequiredArgumentMissing
  | Union
  | UnkownArgument
  | UnknownInputField
  | UnknownSelectionField
  | ValueTooLarge
deriving DecidableEq, Repr

/-- The serialized (serde) name of a `ValidationErrorKind` variant. -/
def validationErrorKindName : ValidationErrorKind → String
  | .EmptySelection => "EmptySelection"
  | .InvalidArgumentType => "InvalidArgumentType"
  | .InvalidArgumentValue => "InvalidArgumentValue"
  | .SomeFieldsMissing => "SomeFieldsMissing"
  | .TooManyFieldsGiven => "TooManyFieldsGiven"
  | .SelectionSetOnScalar => "SelectionSetOnScalar"
  | .RequiredArgumentMissing => "RequiredArgumentMissing"
  | .Union => "Union"
  | .UnkownArgument => "UnkownArgument"
  | .UnknownInputField => "UnknownInputField"
  | .UnknownSelectionField => "UnknownSelectionField"
  | .ValueTooLarge => "ValueTooLarge"

/-- All variants of `ValidationErrorKind`, in source order. -/
def allValidationErrorKinds : List ValidationErrorKind :=
  [.EmptySelection, .InvalidArgumentType, .InvalidArgumentValue, .SomeFieldsMissing,
   .TooManyFieldsGiven, .SelectionSetOnScalar, .RequiredArgumentMissing, .Union,
   .UnkownArgument, .UnknownInputField, .UnknownSelectionField, .ValueTooLarge]

/-- Mirrors `ValidationErrorKind::code`. -/
def validationErrorKindCode : ValidationErrorKind → String
  | .RequiredArgumentMissing => "P2012"
  | _ => "P2009"

/-- Mirrors `struct ValidationError`: kind, human-readable message, ordered
selection path, optional structured metadata payload (the `serde_json`
payload embedded as its key/rendered-value pairs). -/
structure ValidationError where
  kind : ValidationErrorKind
  message : String
  selectionPath : List String
  meta : Option (List (String × String))
deriving DecidableEq, Repr

/-- Mirrors the `Display` impl of `InputTypeConstraints` (used in the
`SomeFieldsMissing` / `TooManyFieldsGiven` messages). -/
def renderInputTypeConstraints (min max : Option Nat) (fields : Option (List String))
    (got : Nat) : String :=
  match fields, min, max with
  | none, some 1, some 1 =>
      "Expected exactly one field to be present, got " ++ toString got ++ "."
  | none, some mn, some mx =>
      "Expected a minimum of " ++ toString mn ++ " and at most " ++ toString mx
        ++ " fields to be present, got " ++ toString got ++ "."
  | none, some mn, none =>
      "Expected a minimum of " ++ toString mn ++ " fields to be present, got "
        ++ toString got ++ "."
  | none, none, some mx =>
      "Expected at most " ++ toString mx ++ " fields to be present, got "
        ++ toString got ++ "."
  | none, none, none => "Expected any selection of fields, got " ++ toString got ++ "."
  | some fs, some 1, some 1 =>
      "Expected exactly one field of (" ++ String.intercalate ", " fs
        ++ ") to be present, got " ++ toString got ++ "."
  | some fs, some mn, some mx =>
      "Expected a minimum of " ++ toString mn ++ " and at most " ++ toString mx
        ++ " fields of (" ++ String.intercalate ", " fs ++ ") to be present, got "
        ++ toString got ++ "."
  | some fs, some mn, none =>
      "Expected a minimum of " ++ toString mn ++ " fields of ("
        ++ String.intercalate ", " fs ++ ") to be present, got " ++ toString got ++ "."
  | some fs, none, some mx =>
      "Expected at most " ++ toString mx ++ " fields of ("
        ++ String.intercalate ", " fs ++ ") to be present, got " ++ toString got ++ "."
  | some fs, none, none => "Expected any selection of fields, got " ++ toString got ++ "."

/-- Mirrors `ValidationError::empty_selection`. -/
def ValidationError.empty_selection (selectionPath : List String)
    (outputTypeName : String) : ValidationError :=
  { kind := .EmptySelection,
    message := "Expected a minimum of 1 field to be present, got 0",
    selectionPath := selectionPath,
    meta := some [("outputType", outputTypeName)] }

/-- Mirrors `ValidationError::invalid_argument_type`. -/
def ValidationError.invalid_argument_type (selectionPath argumentPath : List String)
    (argumentName : String) (typeNames : List String) : ValidationError :=
  { kind := .InvalidArgumentType,
    message := "Invalid argument type. `" ++ argumentName
      ++ "` should be of any of the following types: `"
      ++ String.intercalate ", " typeNames ++ "`",
    selectionPath := selectionPath,
    meta := some [("argumentPath", String.intercalate "." argumentPath),
                  ("argument", argumentName)] }

/-- Mirrors `ValidationError::invalid_argument_value`
(`argument_path.last().expect(..)` embedded as `Option`: `none` is the
panic on an empty argument path). -/
def ValidationError.invalid_argument_value (selectionPath argumentPath : List String)
    (value expectedArgumentType : String) (underlyingErr : Option String) :
    Option ValidationError :=
  (argumentPath.getLast?).map (fun argumentName =>
    match underlyingErr with
    | some err =>
        { kind := .InvalidArgumentValue,
          message := "Invalid argument agument value. `" ++ value
            ++ "` is not a valid `" ++ expectedArgumentType
            ++ "`. Underlying error: " ++ err,
          selectionPath := selectionPath,
          meta := some [("argumentPath", String.intercalate "." argumentPath),
                        ("argument", argumentName), ("underlying_error", err)] }
    | none =>
        { kind := .InvalidArgumentValue,
          message := "Invalid argument agument value. `" ++ value
            ++ "` is not a valid `" ++ expectedArgumentType ++ "`",
          selectionPath := selectionPath,
          meta := some [("argumentPath", String.intercalate "." argumentPath),
                        ("argument", argumentName), ("underlying_error", "null")] })

/-- Mirrors `ValidationError::some_fields_missing`. -/
def ValidationError.some_fields_missing (selectionPath argumentPath : List String)
    (minFieldCount maxFieldCount : Option Nat) (requiredFields : Option (List String))
    (providedFieldCount : Nat) : ValidationError :=
  { kind := .SomeFieldsMissing,
    message := "Some fields are missing: "
      ++ renderInputTypeConstraints minFieldCount maxFieldCount requiredFields
          providedFieldCount,
    selectionPath := selectionPath,
    meta := some [("argumentPath", String.intercalate "." argumentPath)] }

/-- Mirrors `ValidationError::too_many_fields_given`. -/
def ValidationError.too_many_fields_given (selectionPath argumentPath : List String)
    (minFieldCount maxFieldCount : Option Nat) (requiredFields : Option (List String))
    (providedFieldCount : Nat) : ValidationError :=
  { kind := .TooManyFieldsGiven,
    message := "Too many fields given: "
      ++ renderInputTypeConstraints minFieldCount maxFieldCount requiredFields
          providedFieldCount,
    selectionPath := selectionPath,
    meta := some [("argumentPath", String.intercalate "." argumentPath)] }

/-- Mirrors `ValidationError::required_argument_missing`. -/
def ValidationError.required_argument_missing (selectionPath argumentPath : List String)
    (inputTypeName : String) : ValidationError :=
  { kind := .RequiredArgumentMissing,
    message := "`" ++ String.intercalate "." argumentPath
      ++ "`: A value is required but not set",
    selectionPath := selectionPath,
    meta := some [("inputType", inputTypeName),
                  ("argumentPath", String.intercalate "." argumentPath)] }

/-- Mirrors `ValidationError::unknown_argument` (whose kind is the
`UnkownArgument` variant). -/
def ValidationError.unknown_argument (selectionPath argumentPath : List String)
    (argumentNames : List String) : ValidationError :=
  { kind := .UnkownArgument,
    message := "Argument does not exist in enclosing type",
    selectionPath := selectionPath,
    meta := some [("argumentPath", String.intercalate "." argumentPath),
                  ("arguments", String.intercalate ", " argumentNames)] }

/-- Mirrors `ValidationError::unknown_input_field`. -/
def ValidationError.unknown_input_field (selectionPath : List String)
    (inputTypeName : String) : ValidationError :=
  { kind := .UnknownInputField,
    message := "`" ++ String.intercalate "." selectionPath
      ++ "`: Field does not exist in enclosing type.",
    selectionPath := selectionPath,
    meta := some [("inputType", inputTypeName)] }

/-- Mirrors `ValidationError::unkown_selection_field` (whose kind is
`UnknownSelectionField`). -/
def ValidationError.unkown_selection_field (fieldName : String)
    (selectionPath : List String) (outputTypeName : String) : ValidationError :=
  { kind := .UnknownSelectionField,
    message := "Field '" ++ fieldName ++ "' not found in enclosing type '"
      ++ outputTypeName ++ "'",
    selectionPath := selectionPath,
    meta := some [("outputType", outputTypeName)] }

/-- Mirrors `ValidationError::selection_set_on_scalar` (the only constructor
with no metadata payload). -/
def ValidationError.selection_set_on_scalar (fieldName : String)
    (selectionPath : List String) : ValidationError :=
  { kind := .SelectionSetOnScalar,
    message := "Cannot select over scalar field '" ++ fieldName ++ "'",
    selectionPath := selectionPath,
    meta := none }

/-- Mirrors `ValidationError::value_too_large`
(`argument_path.last().expect(..)` embedded as `Option`). -/
def ValidationError.value_too_large (selectionPath argumentPath : List String)
    (value : String) : Option ValidationError :=
  (argumentPath.getLast?).map (fun argumentName =>
    { kind := .ValueTooLarge,
      message := "Unable to fit float value (or large JS integer serialized in exponent notation) '"
        ++ value ++ "' into a 64 Bit signed integer for field '" ++ argumentName
        ++ "'. If you're trying to store large integers, consider using `BigInt`",
      selectionPath := selectionPath,
      meta := some [("argumentPath", String.intercalate "." argumentPath),
                    ("argument", argumentName)] })

/-! ## Parsed query documents (`query-engine/core/src/query_document/parse_ast.rs`) -/

/-- Mirrors the subset of `prisma_models::PrismaValue` needed here. -/
inductive PrismaValue where
  | string (s : String)
  | int (i : Int)
  | boolean (b : Bool)
  | null
deriving DecidableEq, Repr

/-- Mirrors `enum ParsedInputValue` (maps carry the same tag vocabulary as
input object types). -/
inductive ParsedInputValue where
  | single (v : PrismaValue)
  | orderBy (o : String)
  | scalarField (name : String)
  | list (xs : List ParsedInputValue)
  | map (tag : Option ObjectTag) (entries : List (String × ParsedInputValue))
deriving Repr

/-- Mirrors `struct ParsedArgument { name, value }`. -/
structure ParsedArgument where
  name : String
  value : ParsedInputValue
deriving Repr

/-- Mirrors `ArgumentListLookup::lookup` for `Vec<ParsedArgument>`:
`self.iter().position(|arg| arg.name == name).map(|pos| self.remove(pos))`.
Returns the removed argument (if any) together with the remaining pool. -/
def argumentListLookup (l : List ParsedArgument) (name : String) :
    Option ParsedArgument × List ParsedArgument :=
  match l.findIdx? (fun arg => arg.name == name) with
  | some pos => (l.get? pos, l.eraseIdx pos)
  | none => (none, l)

/-! ## Termination of cyclic type-graph construction (spec §4.1, §9).

Modelled from the spec: the registry arena (`db.rs`) is missing from the
snapshot, so the traversal below models the caller pattern visible in
`field_filter_types.rs` (e.g. `to_many_relation_filter_object`): check the
cache (`return_cached_input!`), register the identity placeholder
(`cache_input_type`) *before* recursing into the related models' types, then
attach the fields.  `rel m` gives the models whose types the construction of
`m`'s type requests; the cache is the list of registered identifiers. -/

/-- Modelled from the spec: fuel-indexed construction visit.  `buildVisit rel
fuel cache ms` processes the pending requests `ms`: a cached request is
skipped, an uncached one registers its placeholder and recurses into its
related models before continuing.  `none` means the fuel ran out. -/
def buildVisit (rel : String → List String) :
    Nat → List String → List String → Option (List String)
  | _, cache, [] => some cache
  | 0, _, _ :: _ => none
  | (fuel+1), cache, m :: ms =>
      if m ∈ cache then buildVisit rel fuel cache ms
      else
        match buildVisit rel fuel (m :: cache) (rel m) with
        | none => none
        | some c => buildVisit rel fuel c ms

/-- The number of universe models not yet registered in the cache: the
decreasing measure of the construction. -/
def unregisteredCount (univ cache : List String) : Nat :=
  (univ.toFinset.filter (fun x => x ∉ cache)).card

/-! ## Spec-side reference definitions (for refinement comparisons).

These follow the spec's words, to be compared with the source-derived
builders above. -/

/-- Spec side, §4.2 `WhereUniqueInput`: the named constrained-field set —
"the single unique/id scalar field names, the compound-unique index object
names, and the compound-id object name". -/
def specConstrainedFieldNames (model : ModelM) : List String :=
  (model.fields.filter isUniqueScalar).map modelFieldName
    ++ ((model.uniqueIndexes.filter (fun idx => idx.fields.length > 1)).map
          compoundIndexFieldName)
    ++ ((model.primaryKey.bind (fun pk =>
          if pk.fields.length > 1 then some (compoundIdFieldName pk) else none)).toList)

/-- Spec side: the scalar kinds that (per the code's filter matrix) receive
the ordering comparison filters `lt`/`lte`/`gt`/`gte` unconditionally:
string-like, numeric and date kinds — not bytes, not enums. -/
def specOrderingComparisonKind : TypeIdentifier → Bool
  | .String | .UUID | .Int | .BigInt | .Float | .DateTime | .Decimal => true
  | _ => false

/-- Spec side: the scalar kinds that receive the inclusion/exclusion list
filters `in`/`notIn`. -/
def specInclusionKind : TypeIdentifier → Bool
  | .String | .UUID | .Int | .BigInt | .Float | .DateTime | .Decimal => true
  | .Bytes | .Enum _ => true
  | _ => false

/-- The eleven kinds that the `ValidationError` constructors actually emit
(every variant except `Union`, which has no constructor in the source). -/
def emittedValidationErrorKinds : List ValidationErrorKind :=
  [.EmptySelection, .InvalidArgumentType, .InvalidArgumentValue, .SomeFieldsMissing,
   .TooManyFieldsGiven, .SelectionSetOnScalar, .RequiredArgumentMissing,
   .UnkownArgument, .UnknownInputField, .UnknownSelectionField, .ValueTooLarge]

/-! ## Concrete fixtures for counterexamples and witnesses -/

/-- A minimal builder configuration: no features, no capabilities, raw
queries disabled, no connector string filters. -/
def ctx0 : BuilderCtx :=
  { features := [], capabilities := [], enableRawQueries := false, stringFilters := [] }

/-- The extended-where-unique configuration. -/
def ctxExtended : BuilderCtx :=
  { features := [PreviewFeature.ExtendedWhereUnique], capabilities := [],
    enableRawQueries := false, stringFilters := [] }

/-- A model `A` with no fields. -/
def modelA : ModelM :=
  { name := "A", fields := [], uniqueIndexes := [], primaryKey := none,
    supportsCreate := true, hasUpsertArgs := true, hasCreateManyArgs := true,
    hasDeleteOneArgs := true, hasUpdateOneArgs := true }

/-- A model `B` whose creation is unsupported although all argument builders
would succeed. -/
def modelNoCreate : ModelM :=
  { name := "B", fields := [], uniqueIndexes := [], primaryKey := none,
    supportsCreate := false, hasUpsertArgs := true, hasCreateManyArgs := true,
    hasDeleteOneArgs := true, hasUpdateOneArgs := true }

/-- A model with a unique scalar `id`, a plain scalar `age`, a compound
unique index over `(firstName, lastName)` and a compound id `(a, b)`. -/
def modelU : ModelM :=
  { name := "User",
    fields :=
      [ModelFieldM.scalar
         { name := "id", typeId := .Int, isUnique := true, isRequired := true,
           isList := false },
       ModelFieldM.scalar
         { name := "age", typeId := .Int, isUnique := false, isRequired := true,
           isList := false },
       ModelFieldM.scalar
         { name := "firstName", typeId := .String, isUnique := false,
           isRequired := true, isList := false },
       ModelFieldM.scalar
         { name := "lastName", typeId := .String, isUnique := false,
           isRequired := true, isList := false }],
    uniqueIndexes := [{ name := none, fields := ["firstName", "lastName"] }],
    primaryKey := some { name := some "ab", fields := ["a", "b"] },
    supportsCreate := true, hasUpsertArgs := true, hasCreateManyArgs := true,
    hasDeleteOneArgs := true, hasUpdateOneArgs := true }

/-- The operation tags of the per-model mutation fields (projection of
`mutationFieldsForModel` to its `query_info`s). -/
def mutationQueryInfos (m : ModelM) : List QueryInfo :=
  (mutationFieldsForModel m).filterMap OutputField.queryInfo

/-- Raw-queries-enabled configuration with the SQL raw capability. -/
def ctxRaw : BuilderCtx :=
  { features := [], capabilities := [ConnectorCapability.SqlQueryRaw],
    enableRawQueries := true, stringFilters := [] }

/-! # Theorems -/

/-! ## Shared helper lemmas -/

/-- Looking an identifier up right after registering it yields the
registered value. -/
theorem TypeCache_lookup_insert {α : Type} (c : TypeCache α) (ident : Identifier)
    (v : α) : TypeCache.lookup ((ident, v) :: c) ident = some v := by
  simp [TypeCache.lookup, List.find?_cons_of_pos]

/-- `findIdx?` over a list whose first satisfying element sits after a
non-satisfying prefix. -/
theorem findIdx_append_cons {α : Type} (p : α → Bool) :
    ∀ (l₁ : List α) (a : α) (l₂ : List α), (∀ b ∈ l₁, p b = false) → p a = true →
      (l₁ ++ a :: l₂).findIdx? p = some l₁.length := by
  intro l₁
  induction l₁ with
  | nil =>
      intro a l₂ _ hpa
      simp [List.findIdx?_cons, hpa]
  | cons b l₁ ih =>
      intro a l₂ h hpa
      have hb : p b = false := h b (List.mem_cons_self _ _)
      have hrest : ∀ x ∈ l₁, p x = false := fun x hx => h x (List.mem_cons_of_mem _ hx)
      simp [List.findIdx?_cons, hb, ih a l₂ hrest hpa]

/-- `eraseIdx` at the index right past a prefix removes the element there. -/
theorem eraseIdx_append_cons {α : Type} :
    ∀ (l₁ : List α) (a : α) (l₂ : List α),
      (l₁ ++ a :: l₂).eraseIdx l₁.length = l₁ ++ l₂ := by
  intro l₁
  induction l₁ with
  | nil => intro a l₂; rfl
  | cons b l₁ ih => intro a l₂; simp [List.eraseIdx, ih a l₂]

/-- `get?` at the index right past a prefix returns the element there. -/
theorem get_append_cons {α : Type} :
    ∀ (l₁ : List α) (a : α) (l₂ : List α), (l₁ ++ a :: l₂).get? l₁.length = some a := by
  intro l₁
  induction l₁ with
  | nil => intro a l₂; rfl
  | cons b l₁ ih => intro a l₂; simpa using ih a l₂

/-! ## C1 — identity-keyed caching and identifier equality -/

/-- C1: repeated lookup of the same `Identifier` yields the same single
cached instance — after a `get_or_insert` the same identifier resolves to the
already-registered instance and the (second) constructor is not run — and
two identifiers are equal exactly when their namespace and logical name are
both equal. -/
theorem c1_identifier_cache_identity :
    (∀ a b : Identifier, a = b ↔ (a.name = b.name ∧ a.ns = b.ns)) ∧
    (∀ (α : Type) (c : TypeCache α) (ident : Identifier) (ctor ctor₂ : Unit → α),
      TypeCache.getOrInsert (TypeCache.getOrInsert c ident ctor).2.1 ident ctor₂
        = ((TypeCache.getOrInsert c ident ctor).1,
           (TypeCache.getOrInsert c ident ctor).2.1, false)) := by
  constructor
  · intro a b
    constructor
    · intro h
      cases h
      exact ⟨rfl, rfl⟩
    · intro ⟨h1, h2⟩
      cases a
      cases b
      simp_all
  · intro α c ident ctor ctor₂
    cases h : TypeCache.lookup c ident with
    | some v =>
        simp [TypeCache.getOrInsert, h]
    | none =>
        simp [TypeCache.getOrInsert, h, TypeCache_lookup_insert]

/-! ## C8 — once-only output field lists -/

/-- C8: the output field list of an `ObjectType` is assigned at most once
(a second assignment is the fatal `refilledFields` panic), after the first
assignment every read observes exactly the assigned list, and reading the
field list of a never-assigned `ObjectType` is the fatal
`uninitializedFields` panic — a `BuilderPanic`, a type structurally distinct
from the user-facing `ValidationError`. -/
theorem c8_object_type_fields_once (ident : Identifier) (mid : Option String)
    (fs fs' : List OutputField) :
    (ObjectTypeM.new ident mid).get_fields = Except.error BuilderPanic.uninitializedFields ∧
    (ObjectTypeM.new ident mid).set_fields fs
      = Except.ok { identifier := ident, fields := some fs, model := mid } ∧
    ({ identifier := ident, fields := some fs, model := mid } : ObjectTypeM).get_fields
      = Except.ok fs ∧
    ({ identifier := ident, fields := some fs, model := mid } : ObjectTypeM).set_fields fs'
      = Except.error BuilderPanic.refilledFields :=
  ⟨rfl, rfl, rfl, rfl⟩

/-! ## C10 — order-by cardinality constraints -/

/-- C10: every `<Container>OrderBy<Suffix>Input` object built by
`order_by_object_type` carries the at-most-one-field constraint
(`min_num_fields = 0`, `max_num_fields = 1`, over all fields), and the
per-aggregation and to-many-count ordering sub-objects require exactly one
field (`min_num_fields = 1`, `max_num_fields = 1`). -/
theorem c10_order_by_constraints (ctx : BuilderCtx) (container : ParentContainer)
    (options : OrderByOptions) (suffix : String) (scalarFields : List ScalarFieldM) :
    (orderByObjectType ctx container options).constraints
      = { min_num_fields := some 0, max_num_fields := some 1, fields := none } ∧
    (orderByObjectTypeAggregate suffix container scalarFields).constraints
      = { min_num_fields := some 1, max_num_fields := some 1, fields := none } ∧
    (orderByToManyAggregateObjectType container).constraints
      = { min_num_fields := some 1, max_num_fields := some 1, fields := none } :=
  ⟨rfl, rfl, rfl⟩

/-! ## C9 — consuming argument lookup -/

/-- C9: looking up an argument by name removes and returns the first
argument with that name — the returned occurrence is no longer in the
remaining pool, so a provided argument value can satisfy at most one
declared argument — and a lookup for an absent name returns `none` and
leaves the list unchanged. -/
theorem c9_argument_lookup_consumes (l : List ParsedArgument) (name : String) :
    ((∀ a ∈ l, a.name ≠ name) → argumentListLookup l name = (none, l)) ∧
    (∀ (l₁ l₂ : List ParsedArgument) (a : ParsedArgument),
      l = l₁ ++ a :: l₂ → (∀ b ∈ l₁, b.name ≠ name) → a.name = name →
      argumentListLookup l name = (some a, l₁ ++ l₂)) := by
  constructor
  · intro h
    have hnone : l.findIdx? (fun arg => arg.name == name) = none := by
      rw [List.findIdx?_eq_none_iff]
      intro x hx
      simpa using h x hx
    simp [argumentListLookup, hnone]
  · intro l₁ l₂ a hl h1 ha
    subst hl
    have hfind := findIdx_append_cons (fun arg => arg.name == name) l₁ a l₂
      (fun b hb => by simpa using h1 b hb) (by simpa using ha)
    simp only [argumentListLookup, hfind, eraseIdx_append_cons]
    rw [get_append_cons]

/-- C9 witness: a present name is consumed (first occurrence removed from
the pool), an absent name leaves the pool unchanged. -/
theorem c9_argument_lookup_consumes_witness :
    argumentListLookup
        [{ name := "where", value := ParsedInputValue.single (PrismaValue.int 1) },
         { name := "take", value := ParsedInputValue.single (PrismaValue.int 2) }]
        "take"
      = (some { name := "take", value := ParsedInputValue.single (PrismaValue.int 2) },
         [{ name := "where", value := ParsedInputValue.single (PrismaValue.int 1) }]) ∧
    argumentListLookup
        [{ name := "where", value := ParsedInputValue.single (PrismaValue.int 1) }]
        "skip"
      = (none,
         [{ name := "where", value := ParsedInputValue.single (PrismaValue.int 1) }]) :=
  ⟨(c9_argument_lookup_consumes _ "take").2
      [{ name := "where", value := ParsedInputValue.single (PrismaValue.int 1) }] []
      { name := "take", value := ParsedInputValue.single (PrismaValue.int 2) }
      rfl (by decide) rfl,
   (c9_argument_lookup_consumes _ "skip").1 (by decide)⟩

/-! ## C2 — termination of cyclic construction -/

/-- Growing the cache cannot increase the number of unregistered models. -/
theorem unregisteredCount_mono (univ : List String) {cache cache' : List String}
    (h : cache ⊆ cache') :
    unregisteredCount univ cache' ≤ unregisteredCount univ cache := by
  apply Finset.card_le_card
  apply Finset.monotone_filter_right
  intro x hx hmem
  exact hx (h hmem)

/-- Registering a placeholder for an unregistered universe model strictly
decreases the number of unregistered models. -/
theorem unregisteredCount_insert (univ : List String) {m : String}
    {cache : List String} (hm : m ∈ univ) (hnm : m ∉ cache) :
    unregisteredCount univ (m :: cache) + 1 ≤ unregisteredCount univ cache := by
  have hss : univ.toFinset.filter (fun x => x ∉ m :: cache)
      ⊂ univ.toFinset.filter (fun x => x ∉ cache) := by
    constructor
    · apply Finset.monotone_filter_right
      intro x hx hmem
      exact hx (List.mem_cons_of_mem _ hmem)
    · intro hsup
      have hmem : m ∈ univ.toFinset.filter (fun x => x ∉ cache) := by
        simp [List.mem_toFinset, hm, hnm]
      have := hsup hmem
      simp at this
  exact Nat.succ_le_of_lt (Finset.card_lt_card hss)

/-- Fuel-indexed totality of the construction visit: with fuel at least the
pending-request count plus `(R+1)` per unregistered model, the visit
completes, only grows the cache, registers every request, and registers
only universe models. -/
theorem buildVisit_succeeds (univ : List String) (rel : String → List String) (R : Nat)
    (hrel : ∀ x ∈ univ, rel x ⊆ univ) (hlen : ∀ x ∈ univ, (rel x).length ≤ R) :
    ∀ (fuel : Nat) (cache ms : List String), ms ⊆ univ →
      ms.length + unregisteredCount univ cache * (R + 1) ≤ fuel →
      ∃ c, buildVisit rel fuel cache ms = some c ∧ cache ⊆ c ∧
        (∀ x ∈ c, x ∈ cache ∨ x ∈ univ) ∧ (∀ x ∈ ms, x ∈ c) := by
  intro fuel
  induction fuel with
  | zero =>
      intro cache ms hms hb
      cases ms with
      | nil =>
          exact ⟨cache, rfl, fun x hx => hx, fun x hx => Or.inl hx,
            fun x hx => absurd hx (List.not_mem_nil x)⟩
      | cons m ms' =>
          simp [List.length_cons] at hb
  | succ fuel IH =>
      intro cache ms hms hb
      cases ms with
      | nil =>
          exact ⟨cache, rfl, fun x hx => hx, fun x hx => Or.inl hx,
            fun x hx => absurd hx (List.not_mem_nil x)⟩
      | cons m ms' =>
          have hmu : m ∈ univ := hms (List.mem_cons_self _ _)
          have hms' : ms' ⊆ univ := fun x hx => hms (List.mem_cons_of_mem _ hx)
          by_cases hmem : m ∈ cache
          · simp only [buildVisit, if_pos hmem]
            obtain ⟨c, heq, hsub, hdom, hall⟩ := IH cache ms' hms' (by
              simp only [List.length_cons] at hb
              omega)
            refine ⟨c, heq, hsub, hdom, fun x hx => ?_⟩
            rcases List.mem_cons.mp hx with rfl | hx'
            · exact hsub hmem
            · exact hall x hx'
          · simp only [buildVisit, if_neg hmem]
            have hstrict := unregisteredCount_insert univ hmu hmem
            have hmul1 : (unregisteredCount univ (m :: cache) + 1) * (R + 1)
                ≤ unregisteredCount univ cache * (R + 1) :=
              Nat.mul_le_mul_right _ hstrict
            have hexp : (unregisteredCount univ (m :: cache) + 1) * (R + 1)
                = unregisteredCount univ (m :: cache) * (R + 1) + (R + 1) := by ring
            have hb1 : (rel m).length + unregisteredCount univ (m :: cache) * (R + 1)
                ≤ fuel := by
              have hR := hlen m hmu
              simp only [List.length_cons] at hb
              omega
            obtain ⟨c₁, heq1, hsub1, hdom1, hall1⟩ :=
              IH (m :: cache) (rel m) (hrel m hmu) hb1
            rw [heq1]
            have hsubc1 : cache ⊆ c₁ := fun x hx => hsub1 (List.mem_cons_of_mem _ hx)
            have hmono := unregisteredCount_mono univ hsub1
            have hmul2 : unregisteredCount univ c₁ * (R + 1)
                ≤ unregisteredCount univ (m :: cache) * (R + 1) :=
              Nat.mul_le_mul_right _ hmono
            have hb2 : ms'.length + unregisteredCount univ c₁ * (R + 1) ≤ fuel := by
              simp only [List.length_cons] at hb
              omega
            obtain ⟨c, heq2, hsub2, hdom2, hall2⟩ := IH c₁ ms' hms' hb2
            refine ⟨c, heq2, fun x hx => hsub2 (hsubc1 hx), ?_, ?_⟩
            · intro x hx
              rcases hdom2 x hx with hx1 | hx2
              · rcases hdom1 x hx1 with hx3 | hx4
                · rcases List.mem_cons.mp hx3 with rfl | hx5
                  · exact Or.inr hmu
                  · exact Or.inl hx5
                · exact Or.inr hx4
              · exact Or.inr hx2
            · intro x hx
              rcases List.mem_cons.mp hx with rfl | hx'
              · exact hsub2 (hsub1 (List.mem_cons_self _ _))
              · exact hall2 x hx'

/-- C2: for every data model whose relation graph stays inside its finite
model universe — including any relation cycle A→B→A — the construction
visit terminates within an explicit fuel bound (`1 + |universe| * (R+1)`,
where `R` bounds the per-model relation fan-out): because each uncached
request registers its identity placeholder *before* recursing into its
related models, re-entrant requests hit the cache, and the resulting type
graph is finite (every registered identifier is a universe model). -/
theorem c2_cyclic_build_terminates (univ : List String) (rel : String → List String)
    (R : Nat) (m : String)
    (hrel : ∀ x ∈ univ, rel x ⊆ univ) (hlen : ∀ x ∈ univ, (rel x).length ≤ R)
    (hm : m ∈ univ) :
    ∃ c, buildVisit rel (1 + univ.length * (R + 1)) [] [m] = some c ∧
      m ∈ c ∧ (∀ x ∈ c, x ∈ univ) := by
  have hcount : unregisteredCount univ [] ≤ univ.length := by
    have h1 : unregisteredCount univ [] = univ.toFinset.card := by
      simp [unregisteredCount]
    rw [h1]
    exact univ.toFinset_card_le
  have hb : ([m] : List String).length + unregisteredCount univ [] * (R + 1)
      ≤ 1 + univ.length * (R + 1) := by
    have := Nat.mul_le_mul_right (R + 1) hcount
    simp only [List.length_singleton]
    omega
  obtain ⟨c, heq, _, hdom, hall⟩ := buildVisit_succeeds univ rel R hrel hlen
    (1 + univ.length * (R + 1)) [] [m]
    (fun x hx => by rcases List.mem_singleton.mp hx with rfl; exact hm) hb
  refine ⟨c, heq, hall m (List.mem_singleton_self m), fun x hx => ?_⟩
  rcases hdom x hx with h | h
  · exact absurd h (List.not_mem_nil x)
  · exact h

/-- C2 witness: the two-model relation cycle A→B→A builds to completion
within the fuel bound, and its type graph stays inside the universe. -/
theorem c2_cyclic_build_terminates_witness :
    ∃ c, buildVisit (fun x => if x = "A" then ["B"] else if x = "B" then ["A"] else [])
        (1 + ["A", "B"].length * (1 + 1)) [] ["A"] = some c ∧
      "A" ∈ c ∧ (∀ x ∈ c, x ∈ ["A", "B"]) :=
  c2_cyclic_build_terminates ["A", "B"]
    (fun x => if x = "A" then ["B"] else if x = "B" then ["A"] else []) 1 "A"
    (by decide) (by decide) (by decide)

/-! ## C3 — `WhereUniqueInput` cardinality selection -/

/-- C3: the `WhereUniqueInput` cardinality constraint is selected by the
`ExtendedWhereUnique` feature flag — disabled: exactly one field
(`min_num_fields = 1`, `max_num_fields = 1`, over all fields); enabled: at
least one field (`min_num_fields = 1`, no max) drawn from the named
constrained-field set (unique/id scalar names, compound-unique object names,
compound-id object name), with the field list additionally carrying the
AND/OR/NOT boolean operators and the full filter field set of the remaining
fields. -/
theorem c3_where_unique_cardinality (ctx : BuilderCtx) (model : ModelM) :
    (ctx.hasFeature .ExtendedWhereUnique = false →
      (whereUniqueObjectType ctx model).constraints
        = { min_num_fields := some 1, max_num_fields := some 1, fields := none }) ∧
    (ctx.hasFeature .ExtendedWhereUnique = true →
      (whereUniqueObjectType ctx model).constraints
        = { min_num_fields := some 1, max_num_fields := none,
            fields := some (specConstrainedFieldNames model) } ∧
      (∀ b ∈ booleanOperatorFields (InputType.object (whereInputIdentOf model.name)),
        b ∈ (whereUniqueObjectType ctx model).fields) ∧
      (∀ f ∈ model.fields, isUniqueScalar f = false →
        filterInputField ctx f false ∈ (whereUniqueObjectType ctx model).fields)) := by
  constructor
  · intro hflag
    simp only [whereUniqueObjectType, hflag, Bool.false_eq_true, if_neg]
    rfl
  · intro hflag
    refine ⟨?_, ?_, ?_⟩
    · cases hpk : model.primaryKey with
      | none =>
          simp [whereUniqueObjectType, hflag, hpk, InputObjectType.set_fields,
            InputObjectType.apply_constraints_on_fields,
            InputObjectType.require_at_least_one_field, InputObjectType.set_min_fields,
            initInputObjectType, specConstrainedFieldNames, List.map_map]
      | some pk =>
          by_cases hlen : pk.fields.length > 1 <;>
            simp [whereUniqueObjectType, hflag, hpk, hlen, InputObjectType.set_fields,
              InputObjectType.apply_constraints_on_fields,
              InputObjectType.require_at_least_one_field, InputObjectType.set_min_fields,
              initInputObjectType, specConstrainedFieldNames, List.map_map]
    · intro b hb
      simp only [whereUniqueObjectType, hflag, if_pos, InputObjectType.set_fields]
      simp only [List.mem_append]
      exact Or.inr (Or.inl hb)
    · intro f hf hnu
      simp only [whereUniqueObjectType, hflag, if_pos, InputObjectType.set_fields]
      simp only [List.mem_append]
      refine Or.inr (Or.inr ?_)
      exact List.mem_map_of_mem _ (List.mem_filter.mpr ⟨hf, by simp [hnu]⟩)

/-- C3 witness: on a concrete model, the legacy configuration yields the
exactly-one constraint and the extended configuration yields the
at-least-one constraint over the named constrained-field set. -/
theorem c3_where_unique_cardinality_witness :
    (whereUniqueObjectType ctx0 modelU).constraints
      = { min_num_fields := some 1, max_num_fields := some 1, fields := none } ∧
    (whereUniqueObjectType ctxExtended modelU).constraints
      = { min_num_fields := some 1, max_num_fields := none,
          fields := some (specConstrainedFieldNames modelU) } :=
  ⟨(c3_where_unique_cardinality ctx0 modelU).1 (by decide),
   ((c3_where_unique_cardinality ctxExtended modelU).2 (by decide)).1⟩

/-! ## C4 — the validation error taxonomy -/

/-- C4 counterexample: the validation error kind enumeration is not the
claimed closed set of eleven — it also contains the `Union` variant, whose
serialized name is none of the eleven claimed kind names. -/
theorem c4_validation_error_taxonomy_counterexample :
    ValidationErrorKind.Union ∈ allValidationErrorKinds ∧
    validationErrorKindName ValidationErrorKind.Union ∉
      ["EmptySelection", "InvalidArgumentType", "InvalidArgumentValue",
       "SomeFieldsMissing", "TooManyFieldsGiven", "SelectionSetOnScalar",
       "RequiredArgumentMissing", "UnknownArgument", "UnknownInputField",
       "UnknownSelectionField", "ValueTooLarge"] := by
  constructor
  · decide
  · decide

/-- C4 (amended): the kind enumeration is closed with exactly twelve
variants — the claimed eleven (the unknown-argument kind spelled
`UnkownArgument` in the source) plus the never-emitted `Union` — and every
error built by the emitting constructors carries one of those eleven
emitted kinds, a human-readable message, the given ordered selection path,
and an optional structured metadata payload. -/
theorem c4_validation_error_taxonomy_amended :
    (∀ k : ValidationErrorKind, k ∈ allValidationErrorKinds) ∧
    allValidationErrorKinds.length = 12 ∧
    allValidationErrorKinds.Nodup ∧
    ValidationErrorKind.Union ∉ emittedValidationErrorKinds ∧
    (∀ sp tn, (ValidationError.empty_selection sp tn).kind ∈ emittedValidationErrorKinds
      ∧ (ValidationError.empty_selection sp tn).selectionPath = sp
      ∧ (ValidationError.empty_selection sp tn).meta.isSome = true) ∧
    (∀ sp ap an tns,
      (ValidationError.invalid_argument_type sp ap an tns).kind
          ∈ emittedValidationErrorKinds
      ∧ (ValidationError.invalid_argument_type sp ap an tns).selectionPath = sp) ∧
    (∀ sp ap v et ue, ap ≠ [] →
      ∃ e, ValidationError.invalid_argument_value sp ap v et ue = some e
        ∧ e.kind ∈ emittedValidationErrorKinds ∧ e.selectionPath = sp) ∧
    (∀ sp ap mn mx rf got,
      (ValidationError.some_fields_missing sp ap mn mx rf got).kind
          ∈ emittedValidationErrorKinds
      ∧ (ValidationError.some_fields_missing sp ap mn mx rf got).selectionPath = sp) ∧
    (∀ sp ap mn mx rf got,
      (ValidationError.too_many_fields_given sp ap mn mx rf got).kind
          ∈ emittedValidationErrorKinds
      ∧ (ValidationError.too_many_fields_given sp ap mn mx rf got).selectionPath = sp) ∧
    (∀ sp ap tn, (ValidationError.required_argument_missing sp ap tn).kind
          ∈ emittedValidationErrorKinds
      ∧ (ValidationError.required_argument_missing sp ap tn).selectionPath = sp) ∧
    (∀ sp ap ans, (ValidationError.unknown_argument sp ap ans).kind
          ∈ emittedValidationErrorKinds
      ∧ (ValidationError.unknown_argument sp ap ans).selectionPath = sp) ∧
    (∀ sp tn, (ValidationError.unknown_input_field sp tn).kind
          ∈ emittedValidationErrorKinds
      ∧ (ValidationError.unknown_input_field sp tn).selectionPath = sp) ∧
    (∀ fn sp tn, (ValidationError.unkown_selection_field fn sp tn).kind
          ∈ emittedValidationErrorKinds
      ∧ (ValidationError.unkown_selection_field fn sp tn).selectionPath = sp) ∧
    (∀ fn sp, (ValidationError.selection_set_on_scalar fn sp).kind
          ∈ emittedValidationErrorKinds
      ∧ (ValidationError.selection_set_on_scalar fn sp).selectionPath = sp
      ∧ (ValidationError.selection_set_on_scalar fn sp).meta = none) ∧
    (∀ sp ap v, ap ≠ [] →
      ∃ e, ValidationError.value_too_large sp ap v = some e
        ∧ e.kind ∈ emittedValidationErrorKinds ∧ e.selectionPath = sp) := by
  have h1 : ValidationErrorKind.EmptySelection ∈ emittedValidationErrorKinds := by decide
  have h2 : ValidationErrorKind.InvalidArgumentType ∈ emittedValidationErrorKinds := by
    decide
  have h3 : ValidationErrorKind.InvalidArgumentValue ∈ emittedValidationErrorKinds := by
    decide
  have h4 : ValidationErrorKind.SomeFieldsMissing ∈ emittedValidationErrorKinds := by
    decide
  have h5 : ValidationErrorKind.TooManyFieldsGiven ∈ emittedValidationErrorKinds := by
    decide
  have h6 : ValidationErrorKind.RequiredArgumentMissing ∈ emittedValidationErrorKinds := by
    decide
  have h7 : ValidationErrorKind.UnkownArgument ∈ emittedValidationErrorKinds := by decide
  have h8 : ValidationErrorKind.UnknownInputField ∈ emittedValidationErrorKinds := by
    decide
  have h9 : ValidationErrorKind.UnknownSelectionField ∈ emittedValidationErrorKinds := by
    decide
  have h10 : ValidationErrorKind.SelectionSetOnScalar ∈ emittedValidationErrorKinds := by
    decide
  have h11 : ValidationErrorKind.ValueTooLarge ∈ emittedValidationErrorKinds := by decide
  refine ⟨fun k => by cases k <;> decide, rfl, by decide, by decide,
    ?_, ?_, ?_, ?_, ?_, ?_, ?_, ?_, ?_, ?_, ?_⟩
  · intro sp tn
    exact ⟨h1, rfl, rfl⟩
  · intro sp ap an tns
    exact ⟨h2, rfl⟩
  · intro sp ap v et ue hap
    obtain ⟨an, han⟩ := Option.ne_none_iff_exists.mp
      (mt List.getLast?_eq_none_iff.mp hap)
    have hlast : ap.getLast? = some an := han.symm
    cases ue with
    | some err =>
        exact ⟨{ kind := .InvalidArgumentValue,
                 message := "Invalid argument agument value. `" ++ v ++ "` is not a valid `"
                   ++ et ++ "`. Underlying error: " ++ err,
                 selectionPath := sp,
                 meta := some [("argumentPath", String.intercalate "." ap),
                               ("argument", an), ("underlying_error", err)] },
               by simp [ValidationError.invalid_argument_value, hlast], h3, rfl⟩
    | none =>
        exact ⟨{ kind := .InvalidArgumentValue,
                 message := "Invalid argument agument value. `" ++ v ++ "` is not a valid `"
                   ++ et ++ "`",
                 selectionPath := sp,
                 meta := some [("argumentPath", String.intercalate "." ap),
                               ("argument", an), ("underlying_error", "null")] },
               by simp [ValidationError.invalid_argument_value, hlast], h3, rfl⟩
  · intro sp ap mn mx rf got
    exact ⟨h4, rfl⟩
  · intro sp ap mn mx rf got
    exact ⟨h5, rfl⟩
  · intro sp ap tn
    exact ⟨h6, rfl⟩
  · intro sp ap ans
    exact ⟨h7, rfl⟩
  · intro sp tn
    exact ⟨h8, rfl⟩
  · intro fn sp tn
    exact ⟨h9, rfl⟩
  · intro fn sp
    exact ⟨h10, rfl, rfl⟩
  · intro sp ap v hap
    obtain ⟨an, han⟩ := Option.ne_none_iff_exists.mp
      (mt List.getLast?_eq_none_iff.mp hap)
    have hlast : ap.getLast? = some an := han.symm
    exact ⟨{ kind := .ValueTooLarge,
             message := "Unable to fit float value (or large JS integer serialized in exponent notation) '"
               ++ v ++ "' into a 64 Bit signed integer for field '" ++ an
               ++ "'. If you're trying to store large integers, consider using `BigInt`",
             selectionPath := sp,
             meta := some [("argumentPath", String.intercalate "." ap),
                           ("argument", an)] },
           by simp [ValidationError.value_too_large, hlast], h11, rfl⟩

/-- C4 witness: the amended taxonomy facts at concrete inputs, including the
two constructors that require a nonempty argument path. -/
theorem c4_validation_error_taxonomy_amended_witness :
    (ValidationError.empty_selection ["findManyUser"] "User").kind
        ∈ emittedValidationErrorKinds ∧
    (∃ e, ValidationError.value_too_large ["findManyUser"] ["where", "id"] "1e20"
        = some e ∧ e.kind ∈ emittedValidationErrorKinds
        ∧ e.selectionPath = ["findManyUser"]) ∧
    (∃ e, ValidationError.invalid_argument_value ["findManyUser"] ["where", "dob"]
          "invalid date" "DateTime" none
        = some e ∧ e.kind ∈ emittedValidationErrorKinds
        ∧ e.selectionPath = ["findManyUser"]) :=
  ⟨(c4_validation_error_taxonomy_amended.2.2.2.2.1 ["findManyUser"] "User").1,
   (c4_validation_error_taxonomy_amended.2.2.2.2.2.2.2.2.2.2.2.2.2.2
     ["findManyUser"] ["where", "id"] "1e20" (by decide)),
   (c4_validation_error_taxonomy_amended.2.2.2.2.2.2.1
     ["findManyUser"] ["where", "dob"] "invalid date" "DateTime" none (by decide))⟩

/-! ## C5 — AND/OR/NOT boolean operator unions -/

/-- C5 counterexample: on the `WhereInput` of a concrete model, the `OR`
field's declared type union is only the list arm — it does not accept the
filter object type itself, contradicting the claim that all three boolean
operators accept both. -/
theorem c5_boolean_operators_counterexample :
    (whereObjectType ctx0 (ParentContainer.model modelA)).find_field "OR"
      = some ((inputField "OR"
          [InputType.list (InputType.object (Identifier.new_prisma "AWhereInput"))]
          none).optional) ∧
    InputType.object (Identifier.new_prisma "AWhereInput") ∉
      (inputField "OR"
        [InputType.list (InputType.object (Identifier.new_prisma "AWhereInput"))]
        none).optional.fieldTypes := by
  constructor
  · rfl
  · decide

/-- C5 (amended): on every `WhereInput` filter object (for models and
composite containers alike), `AND` and `NOT` accept the filter object type
itself and a list of it, while `OR` accepts only a list of it; the same
holds for the scalar-where variant. -/
theorem c5_boolean_operators_amended (ctx : BuilderCtx) (container : ParentContainer)
    (model : ModelM) (includeAggregates : Bool) :
    ((whereObjectType ctx container).find_field "AND"
      = some ((inputField "AND"
          (listUnionType (InputType.object (whereInputIdent container))) none).optional)) ∧
    ((whereObjectType ctx container).find_field "OR"
      = some ((inputField "OR"
          [InputType.list (InputType.object (whereInputIdent container))] none).optional)) ∧
    ((whereObjectType ctx container).find_field "NOT"
      = some ((inputField "NOT"
          (listUnionType (InputType.object (whereInputIdent container))) none).optional)) ∧
    ((scalarFilterObjectType ctx model includeAggregates).find_field "AND"
      = some ((inputField "AND"
          (listUnionType (InputType.object
            (scalarFilterObjectType ctx model includeAggregates).identifier))
          none).optional)) ∧
    ((scalarFilterObjectType ctx model includeAggregates).find_field "OR"
      = some ((inputField "OR"
          [InputType.list (InputType.object
            (scalarFilterObjectType ctx model includeAggregates).identifier)]
          none).optional)) ∧
    ((scalarFilterObjectType ctx model includeAggregates).find_field "NOT"
      = some ((inputField "NOT"
          (listUnionType (InputType.object
            (scalarFilterObjectType ctx model includeAggregates).identifier))
          none).optional)) := by
  refine ⟨?_, ?_, ?_, ?_, ?_, ?_⟩ <;>
    simp [whereObjectType, scalarFilterObjectType, InputObjectType.find_field,
      InputObjectType.set_fields, InputObjectType.set_tag, initInputObjectType,
      booleanOperatorFields, listUnionType, inputField, InputField.optional,
      List.find?_cons]

/-! ## C7 — the root `Mutation` type -/

/-- The per-model mutation query infos, in closed form per flag valuation. -/
theorem mutationQueryInfos_model (m : ModelM) :
    ∀ qi ∈ mutationQueryInfos m, qi.model = some m.name := by
  intro qi hqi
  cases hsc : m.supportsCreate <;> cases hup : m.hasUpsertArgs <;>
    cases hcm : m.hasCreateManyArgs <;> cases hdo : m.hasDeleteOneArgs <;>
    cases huo : m.hasUpdateOneArgs <;>
    simp [mutationQueryInfos, mutationFieldsForModel, createOneField,
      createManyField, upsertItemField, deleteItemField, updateItemField,
      updateManyField, deleteManyField, mkField, OutputField.nullable,
      hsc, hup, hcm, hdo, huo] at hqi <;>
    aesop

set_option maxHeartbeats 3200000 in
/-- Characterization of the per-model mutation fields by (model name, tag). -/
theorem mem_mutationFieldsForModel_queryInfo (m : ModelM) (nm : String) (tag : QueryTag) :
    (∃ f ∈ mutationFieldsForModel m,
        f.queryInfo = some { model := some nm, tag := tag }) ↔
      (nm = m.name ∧
        ((tag = .CreateOne ∧ m.supportsCreate = true) ∨
         (tag = .UpsertOne ∧ m.supportsCreate = true ∧ m.hasUpsertArgs = true) ∨
         (tag = .CreateMany ∧ m.supportsCreate = true ∧ m.hasCreateManyArgs = true) ∨
         (tag = .DeleteOne ∧ m.hasDeleteOneArgs = true) ∨
         (tag = .UpdateOne ∧ m.hasUpdateOneArgs = true) ∨
         tag = .UpdateMany ∨ tag = .DeleteMany)) := by
  have hmem : (∃ f ∈ mutationFieldsForModel m,
      f.queryInfo = some { model := some nm, tag := tag }) ↔
      ({ model := some nm, tag := tag } : QueryInfo) ∈ mutationQueryInfos m := by
    rw [mutationQueryInfos, List.mem_filterMap]
  rw [hmem]
  cases hsc : m.supportsCreate <;> cases hup : m.hasUpsertArgs <;>
    cases hcm : m.hasCreateManyArgs <;> cases hdo : m.hasDeleteOneArgs <;>
    cases huo : m.hasUpdateOneArgs <;>
    simp [mutationQueryInfos, mutationFieldsForModel, createOneField,
      createManyField, upsertItemField, deleteItemField, updateItemField,
      updateManyField, deleteManyField, mkField, OutputField.nullable,
      hsc, hup, hcm, hdo, huo, QueryInfo.mk.injEq] <;>
    tauto

/-- Models with distinct names are distinct list elements. -/
theorem model_name_inj {models : List ModelM} (h : (models.map ModelM.name).Nodup)
    {m m' : ModelM} (hm : m ∈ models) (hm' : m' ∈ models) (heq : m.name = m'.name) :
    m = m' :=
  List.inj_on_of_nodup_map h hm hm' heq

/-- Lifting the per-model characterization through the whole `Mutation`
field list (model names assumed unique, as in a validated data model). -/
theorem mutationTypeFields_model_tag (ctx : BuilderCtx) (models : List ModelM)
    (m : ModelM) (hm : m ∈ models) (hnodup : (models.map ModelM.name).Nodup)
    (tag : QueryTag) :
    (∃ f ∈ mutationTypeFields ctx models,
        f.queryInfo = some { model := some m.name, tag := tag }) ↔
      ((tag = .CreateOne ∧ m.supportsCreate = true) ∨
       (tag = .UpsertOne ∧ m.supportsCreate = true ∧ m.hasUpsertArgs = true) ∨
       (tag = .CreateMany ∧ m.supportsCreate = true ∧ m.hasCreateManyArgs = true) ∨
       (tag = .DeleteOne ∧ m.hasDeleteOneArgs = true) ∨
       (tag = .UpdateOne ∧ m.hasUpdateOneArgs = true) ∨
       tag = .UpdateMany ∨ tag = .DeleteMany) := by
  constructor
  · rintro ⟨f, hf, hq⟩
    simp only [mutationTypeFields, List.mem_append, or_assoc] at hf
    rcases hf with hf | hf | hf
    · obtain ⟨m', hm', hfm⟩ := List.mem_flatMap.mp hf
      obtain ⟨hname, hcond⟩ :=
        (mem_mutationFieldsForModel_queryInfo m' m.name tag).mp ⟨f, hfm, hq⟩
      have hmm : m = m' := model_name_inj hnodup hm hm' hname
      rw [hmm]
      exact hcond
    · by_cases hc : (ctx.enableRawQueries && ctx.hasCapability .SqlQueryRaw) = true
      · rw [if_pos hc] at hf
        rcases List.mem_cons.mp hf with rfl | hf
        · simp [createExecuteRawField, mkField] at hq
        · rcases List.mem_singleton.mp hf with rfl
          simp [createQueryRawField, mkField] at hq
      · rw [if_neg hc] at hf
        exact absurd hf (List.not_mem_nil f)
    · by_cases hc : (ctx.enableRawQueries && ctx.hasCapability .MongoDbQueryRaw) = true
      · rw [if_pos hc] at hf
        rcases List.mem_singleton.mp hf with rfl
        simp [createMongoDbRunCommandRaw, mkField] at hq
      · rw [if_neg hc] at hf
        exact absurd hf (List.not_mem_nil f)
  · intro hcond
    obtain ⟨f, hf, hq⟩ :=
      (mem_mutationFieldsForModel_queryInfo m m.name tag).mpr ⟨rfl, hcond⟩
    refine ⟨f, ?_, hq⟩
    simp only [mutationTypeFields, List.mem_append, or_assoc]
    exact Or.inl (List.mem_flatMap.mpr ⟨m, hm, hf⟩)

/-- C7 counterexample: for a model whose creation is unsupported (though all
argument builders succeed), the built `Mutation` type contains no upsert
field (and no create-many field) for that model — contradicting the claim
that upsert and create-many are always present. -/
theorem c7_mutation_fields_counterexample :
    ((mutationTypeFields ctx0 [modelNoCreate]).map OutputField.name
      = ["deleteOneB", "updateOneB", "updateManyB", "deleteManyB"]) ∧
    (¬ ∃ f ∈ mutationTypeFields ctx0 [modelNoCreate],
        f.queryInfo = some { model := some "B", tag := QueryTag.UpsertOne }) ∧
    (¬ ∃ f ∈ mutationTypeFields ctx0 [modelNoCreate],
        f.queryInfo = some { model := some "B", tag := QueryTag.CreateMany }) := by
  refine ⟨by rfl, ?_, ?_⟩ <;> decide

/-- C7 (amended): per model, the `Mutation` type contains a create-one field
exactly when creation is supported; upsert and create-many only when
creation is supported *and* their argument builders succeed; delete-one and
update-one exactly when their argument builders succeed; update-many and
delete-many always; and the raw-execution fields exactly when raw queries
are enabled and the corresponding connector capability is present. -/
theorem c7_mutation_fields_amended (ctx : BuilderCtx) (models : List ModelM)
    (m : ModelM) (hm : m ∈ models) (hnodup : (models.map ModelM.name).Nodup) :
    ((∃ f ∈ mutationTypeFields ctx models,
        f.queryInfo = some { model := some m.name, tag := QueryTag.CreateOne }) ↔
      m.supportsCreate = true) ∧
    ((∃ f ∈ mutationTypeFields ctx models,
        f.queryInfo = some { model := some m.name, tag := QueryTag.UpsertOne }) ↔
      (m.supportsCreate = true ∧ m.hasUpsertArgs = true)) ∧
    ((∃ f ∈ mutationTypeFields ctx models,
        f.queryInfo = some { model := some m.name, tag := QueryTag.CreateMany }) ↔
      (m.supportsCreate = true ∧ m.hasCreateManyArgs = true)) ∧
    ((∃ f ∈ mutationTypeFields ctx models,
        f.queryInfo = some { model := some m.name, tag := QueryTag.DeleteOne }) ↔
      m.hasDeleteOneArgs = true) ∧
    ((∃ f ∈ mutationTypeFields ctx models,
        f.queryInfo = some { model := some m.name, tag := QueryTag.UpdateOne }) ↔
      m.hasUpdateOneArgs = true) ∧
    (∃ f ∈ mutationTypeFields ctx models,
        f.queryInfo = some { model := some m.name, tag := QueryTag.UpdateMany }) ∧
    (∃ f ∈ mutationTypeFields ctx models,
        f.queryInfo = some { model := some m.name, tag := QueryTag.DeleteMany }) ∧
    ((∃ f ∈ mutationTypeFields ctx models,
        f.queryInfo = some { model := none, tag := QueryTag.ExecuteRaw }) ↔
      (ctx.enableRawQueries = true ∧ ctx.hasCapability .SqlQueryRaw = true)) ∧
    ((∃ f ∈ mutationTypeFields ctx models,
        f.queryInfo = some { model := none, tag := QueryTag.QueryRaw }) ↔
      (ctx.enableRawQueries = true ∧ ctx.hasCapability .SqlQueryRaw = true)) ∧
    ((∃ f ∈ mutationTypeFields ctx models,
        f.queryInfo = some { model := none, tag := QueryTag.RunCommandRaw }) ↔
      (ctx.enableRawQueries = true ∧ ctx.hasCapability .MongoDbQueryRaw = true)) := by
  have hraw : ∀ (tag : QueryTag),
      (∃ f ∈ mutationTypeFields ctx models,
        f.queryInfo = some { model := none, tag := tag }) ↔
      (∃ f ∈ (if ctx.enableRawQueries && ctx.hasCapability .SqlQueryRaw then
                [createExecuteRawField, createQueryRawField] else []) ++
            (if ctx.enableRawQueries && ctx.hasCapability .MongoDbQueryRaw then
                [createMongoDbRunCommandRaw] else []),
        f.queryInfo = some { model := none, tag := tag }) := by
    intro tag
    constructor
    · rintro ⟨f, hf, hq⟩
      simp only [mutationTypeFields, List.mem_append, or_assoc] at hf
      rcases hf with hf | hf | hf
      · obtain ⟨m', hm', hfm⟩ := List.mem_flatMap.mp hf
        have hqi : ({ model := none, tag := tag } : QueryInfo) ∈ mutationQueryInfos m' :=
          List.mem_filterMap.mpr ⟨f, hfm, hq⟩
        have := mutationQueryInfos_model m' _ hqi
        simp at this
      · exact ⟨f, List.mem_append.mpr (Or.inl hf), hq⟩
      · exact ⟨f, List.mem_append.mpr (Or.inr hf), hq⟩
    · rintro ⟨f, hf, hq⟩
      refine ⟨f, ?_, hq⟩
      simp only [mutationTypeFields, List.mem_append, or_assoc]
      rcases List.mem_append.mp hf with hf | hf
      · exact Or.inr (Or.inl hf)
      · exact Or.inr (Or.inr hf)
  refine ⟨?_, ?_, ?_, ?_, ?_, ?_, ?_, ?_, ?_, ?_⟩
  · rw [mutationTypeFields_model_tag ctx models m hm hnodup]
    simp
  · rw [mutationTypeFields_model_tag ctx models m hm hnodup]
    simp
  · rw [mutationTypeFields_model_tag ctx models m hm hnodup]
    simp
  · rw [mutationTypeFields_model_tag ctx models m hm hnodup]
    simp
  · rw [mutationTypeFields_model_tag ctx models m hm hnodup]
    simp
  · rw [mutationTypeFields_model_tag ctx models m hm hnodup]
    simp
  · rw [mutationTypeFields_model_tag ctx models m hm hnodup]
    simp
  · rw [hraw]
    cases hrq : ctx.enableRawQueries <;>
      cases hcap : ctx.hasCapability .SqlQueryRaw <;>
      cases hcap2 : ctx.hasCapability .MongoDbQueryRaw <;>
      simp [hrq, hcap, hcap2, createExecuteRawField, createQueryRawField,
        createMongoDbRunCommandRaw, mkField]
  · rw [hraw]
    cases hrq : ctx.enableRawQueries <;>
      cases hcap : ctx.hasCapability .SqlQueryRaw <;>
      cases hcap2 : ctx.hasCapability .MongoDbQueryRaw <;>
      simp [hrq, hcap, hcap2, createExecuteRawField, createQueryRawField,
        createMongoDbRunCommandRaw, mkField]
  · rw [hraw]
    cases hrq : ctx.enableRawQueries <;>
      cases hcap : ctx.hasCapability .SqlQueryRaw <;>
      cases hcap2 : ctx.hasCapability .MongoDbQueryRaw <;>
      simp [hrq, hcap, hcap2, createExecuteRawField, createQueryRawField,
        createMongoDbRunCommandRaw, mkField]

/-- C7 witness: the amended field-presence facts at a concrete configuration
(one creatable model, raw queries enabled with the SQL capability). -/
theorem c7_mutation_fields_amended_witness :
    ((∃ f ∈ mutationTypeFields ctxRaw [modelA],
        f.queryInfo = some { model := some "A", tag := QueryTag.UpsertOne }) ↔
      (modelA.supportsCreate = true ∧ modelA.hasUpsertArgs = true)) ∧
    ((∃ f ∈ mutationTypeFields ctxRaw [modelA],
        f.queryInfo = some { model := none, tag := QueryTag.ExecuteRaw }) ↔
      (ctxRaw.enableRawQueries = true ∧ ctxRaw.hasCapability .SqlQueryRaw = true)) :=
  ⟨(c7_mutation_fields_amended ctxRaw [modelA] modelA (by decide) (by decide)).2.1,
   (c7_mutation_fields_amended ctxRaw [modelA] modelA
      (by decide) (by decide)).2.2.2.2.2.2.2.1⟩

/-! ## C6 — the per-scalar-kind filter matrix -/

/-- C6 counterexample: on a connector with no special capabilities, the
scalar filter objects for `Bytes` and for an enum kind contain only the
equality, inclusion and `not` fields — no ordering comparison filters
(`lt`/`lte`/`gt`/`gte`), contradicting the claim that ordering comparisons
exist for bytes and enum kinds. -/
theorem c6_scalar_filter_matrix_counterexample :
    (fullScalarFilterType ctx0 TypeIdentifier.Bytes false false false false).map
        (fun o => o.fields.map InputField.name) = some ["equals", "in", "notIn", "not"] ∧
    (fullScalarFilterType ctx0 (TypeIdentifier.Enum "Color") false false false false).map
        (fun o => o.fields.map InputField.name) = some ["equals", "in", "notIn", "not"] ∧
    "lt" ∉ ["equals", "in", "notIn", "not"] := by
  refine ⟨?_, ?_, ?_⟩ <;> decide

/-- Field names are unaffected by `optional`. -/
theorem name_optional (f : InputField) : f.optional.name = f.name := rfl

/-- Field names are unaffected by `nullable_if`. -/
theorem name_nullable_if (f : InputField) (c : Bool) : (f.nullable_if c).name = f.name := by
  cases c <;> simp [InputField.nullable_if, InputField.nullable]

/-- The equality filter contributes the single name `equals`. -/
theorem names_equalityFilters (ctx : BuilderCtx) (t : InputType) (nullable : Bool) :
    (equalityFilters ctx t nullable).map InputField.name = ["equals"] := by
  simp [equalityFilters, name_nullable_if, name_optional, inputField]

/-- The JSON equality filter contributes the single name `equals`. -/
theorem names_jsonEqualityFilters (ctx : BuilderCtx) (t : InputType) (nullable : Bool) :
    (jsonEqualityFilters ctx t nullable).map InputField.name = ["equals"] := by
  by_cases h : ctx.hasCapability .AdvancedJsonNullability = true <;>
    simp [jsonEqualityFilters, h, name_nullable_if, name_optional, inputField]

/-- The inclusion filters contribute the names `in`, `notIn`. -/
theorem names_inclusionFilters (ctx : BuilderCtx) (t : InputType) (nullable : Bool) :
    (inclusionFilters ctx t nullable).map InputField.name = ["in", "notIn"] := by
  simp [inclusionFilters, name_nullable_if, name_optional, inputField]

/-- The ordering filters contribute the names `lt`, `lte`, `gt`, `gte`. -/
theorem names_alphanumericFilters (ctx : BuilderCtx) (t : InputType) :
    (alphanumericFilters ctx t).map InputField.name = ["lt", "lte", "gt", "gte"] := by
  simp [alphanumericFilters, name_optional, inputField]

/-- The string-operator filters contribute the connector's string filter
names, plus `search` under full-text search. -/
theorem names_stringOperatorFilters (ctx : BuilderCtx) (t : InputType) :
    (stringOperatorFilters ctx t).map InputField.name
      = ctx.stringFilters ++ (if ctx.canFullTextSearch then ["search"] else []) := by
  by_cases h : ctx.canFullTextSearch = true <;>
    simp [stringOperatorFilters, h, name_optional, inputField, InputField.optional,
      List.map_map, Function.comp_def]

/-- The JSON path/array filters contribute their seven fixed names. -/
theorem names_jsonFilters (ctx : BuilderCtx) :
    (jsonFilters ctx).map InputField.name
      = ["path", "string_contains", "string_starts_with", "string_ends_with",
         "array_contains", "array_starts_with", "array_ends_with"] := by
  simp [jsonFilters, name_optional, inputField, InputField.nullable]

/-- The query-mode field contributes `mode` when built. -/
theorem names_queryModeField (ctx : BuilderCtx) (nested : Bool) :
    (queryModeField ctx nested).map InputField.name
      = (if !nested && ctx.hasCapability .InsensitiveFilters then ["mode"] else []) := by
  by_cases h : (!nested && ctx.hasCapability .InsensitiveFilters) = true <;>
    simp [queryModeField, h, name_optional, inputField]

/-- Aggregate filter fields are named after their aggregation. -/
theorem aggregateFilterField_name (nm : String) (t : TypeIdentifier) (n l : Bool) :
    (aggregateFilterField nm t n l).name = nm := rfl

/-- The shorthand `not` filter field is always named `not`. -/
theorem notFilterField_name (ctx : BuilderCtx) (typ : TypeIdentifier) (t : InputType)
    (n a l : Bool) : (notFilterField ctx typ t n a l).name = "not" := by
  cases typ <;>
    simp [notFilterField, name_nullable_if, name_optional, inputField] <;>
    split_ifs <;>
    simp [name_nullable_if, name_optional]

/-- Closed form of `full_scalar_filter_type`'s assembled field list for
non-list, top-level filters. -/
theorem fullScalarFilterType_fields (ctx : BuilderCtx) (typ : TypeIdentifier)
    (nullable aggs : Bool) (hne : typ ≠ TypeIdentifier.Unsupported) :
    fullScalarFilterType ctx typ false nullable false aggs
      = some ((initInputObjectType
            (scalarFilterIdent (typeIdentifierName typ) false nullable false aggs)).set_fields
          (scalarFilterKindFields ctx typ nullable false (mapScalarInputType typ false)
            ++ [notFilterField ctx typ (mapScalarInputType typ false) nullable aggs false]
            ++ (if aggs then
                  [aggregateFilterField "_count" .Int nullable false]
                    ++ (if isNumericType typ then
                          [aggregateFilterField "_avg" (mapAvgTypeIdent typ) nullable false,
                           aggregateFilterField "_sum" typ nullable false]
                        else [])
                    ++ [aggregateFilterField "_min" typ nullable false,
                        aggregateFilterField "_max" typ nullable false]
                else [])
            ++ (if ctx.hasCapability .UndefinedType && nullable then [isSetInputField]
                else []))) := by
  rw [fullScalarFilterType, if_neg hne]
  simp

/-- The `not` field's union contains the nested filter object reference for
every non-JSON kind. -/
theorem notFilterField_mem_types (ctx : BuilderCtx) (typ : TypeIdentifier)
    (t : InputType) (n a : Bool) (hjson : typ ≠ TypeIdentifier.Json) :
    InputType.object (scalarFilterIdent (typeIdentifierName typ) false n true a)
      ∈ (notFilterField ctx typ t n a false).fieldTypes := by
  cases typ <;> first
    | exact absurd rfl hjson
    | (cases n <;>
        simp [notFilterField, InputField.optional, InputField.nullable_if,
          InputField.nullable, inputField])

/-- Names contributed by the string-like kind arms. -/
theorem names_kindFields_String (ctx : BuilderCtx) (nullable nested : Bool)
    (t : InputType) :
    (scalarFilterKindFields ctx .String nullable nested t).map InputField.name
      = ["equals", "in", "notIn", "lt", "lte", "gt", "gte"] ++ ctx.stringFilters
        ++ (if ctx.canFullTextSearch then ["search"] else [])
        ++ (if !nested && ctx.hasCapability .InsensitiveFilters then ["mode"] else []) := by
  simp [scalarFilterKindFields, names_equalityFilters, names_inclusionFilters,
    names_alphanumericFilters, names_stringOperatorFilters, names_queryModeField]

/-- Names contributed by the `UUID` kind arm. -/
theorem names_kindFields_UUID (ctx : BuilderCtx) (nullable nested : Bool)
    (t : InputType) :
    (scalarFilterKindFields ctx .UUID nullable nested t).map InputField.name
      = ["equals", "in", "notIn", "lt", "lte", "gt", "gte"] ++ ctx.stringFilters
        ++ (if ctx.canFullTextSearch then ["search"] else [])
        ++ (if !nested && ctx.hasCapability .InsensitiveFilters then ["mode"] else []) := by
  simp [scalarFilterKindFields, names_equalityFilters, names_inclusionFilters,
    names_alphanumericFilters, names_stringOperatorFilters, names_queryModeField]

/-- Names contributed by the numeric/date kind arms. -/
theorem names_kindFields_numeric (ctx : BuilderCtx) (typ : TypeIdentifier)
    (nullable nested : Bool) (t : InputType)
    (h : typ = .Int ∨ typ = .BigInt ∨ typ = .Float ∨ typ = .DateTime ∨ typ = .Decimal) :
    (scalarFilterKindFields ctx typ nullable nested t).map InputField.name
      = ["equals", "in", "notIn", "lt", "lte", "gt", "gte"] := by
  rcases h with rfl | rfl | rfl | rfl | rfl <;>
    simp [scalarFilterKindFields, names_equalityFilters, names_inclusionFilters,
      names_alphanumericFilters]

/-- Names contributed by the JSON kind arm. -/
theorem names_kindFields_Json (ctx : BuilderCtx) (nullable nested : Bool)
    (t : InputType) :
    (scalarFilterKindFields ctx .Json nullable nested t).map InputField.name
      = ["equals"]
        ++ (if ctx.supportsAny [.JsonFilteringJsonPath, .JsonFilteringArrayPath] then
              ["path", "string_contains", "string_starts_with", "string_ends_with",
               "array_contains", "array_starts_with", "array_ends_with"]
                ++ (if ctx.hasCapability .JsonFilteringAlphanumeric then
                      ["lt", "lte", "gt", "gte"]
                    else [])
            else []) := by
  simp [scalarFilterKindFields, names_jsonEqualityFilters, names_jsonFilters,
    names_alphanumericFilters, apply_ite (List.map InputField.name)]

/-- Names contributed by the boolean/XML kind arms. -/
theorem names_kindFields_boolxml (ctx : BuilderCtx) (typ : TypeIdentifier)
    (nullable nested : Bool) (t : InputType) (h : typ = .Boolean ∨ typ = .Xml) :
    (scalarFilterKindFields ctx typ nullable nested t).map InputField.name
      = ["equals"] := by
  rcases h with rfl | rfl <;>
    simp [scalarFilterKindFields, names_equalityFilters]

/-- Names contributed by the bytes/enum kind arms: equality and inclusion
only — no ordering comparisons. -/
theorem names_kindFields_bytesenum (ctx : BuilderCtx) (typ : TypeIdentifier)
    (nullable nested : Bool) (t : InputType)
    (h : typ = .Bytes ∨ ∃ e, typ = .Enum e) :
    (scalarFilterKindFields ctx typ nullable nested t).map InputField.name
      = ["equals", "in", "notIn"] := by
  rcases h with rfl | ⟨e, rfl⟩ <;>
    simp [scalarFilterKindFields, names_equalityFilters, names_inclusionFilters]

/-- Closed form of the assembled filter-field names. -/
theorem fullScalarFilterType_names (ctx : BuilderCtx) (typ : TypeIdentifier)
    (nullable aggs : Bool) (hne : typ ≠ TypeIdentifier.Unsupported) :
    (fullScalarFilterType ctx typ false nullable false aggs).map
        (fun o => o.fields.map InputField.name)
      = some ((scalarFilterKindFields ctx typ nullable false
            (mapScalarInputType typ false)).map InputField.name
          ++ ["not"]
          ++ (if aggs then
                ["_count"] ++ (if isNumericType typ then ["_avg", "_sum"] else [])
                  ++ ["_min", "_max"]
              else [])
          ++ (if ctx.hasCapability .UndefinedType && nullable then ["isSet"] else [])) := by
  rw [fullScalarFilterType_fields ctx typ nullable aggs hne]
  simp [InputObjectType.set_fields, initInputObjectType, notFilterField_name,
    aggregateFilterField_name, isSetInputField, name_optional, inputField,
    apply_ite (List.map InputField.name)]


set_option maxHeartbeats 3200000 in
/-- C6 (amended): for every non-list scalar model field kind, the generated
scalar filter object contains an equality filter; inclusion/exclusion list
filters exactly for the string, numeric, date, bytes and enum kinds;
ordering comparison filters exactly for the string, numeric and date kinds —
not bytes, not enums — plus JSON under the JSON-alphanumeric capability
gates; the connector string operators plus full-text `search` only on
string kinds when feature and capability allow; JSON path/array operators
exactly under the JSON filtering capabilities; and a `not` shorthand field
that recurses into the same (nested) filter type for non-JSON kinds. -/
theorem c6_scalar_filter_matrix_amended (ctx : BuilderCtx) (typ : TypeIdentifier)
    (nullable includeAggregates : Bool)
    (hne : typ ≠ TypeIdentifier.Unsupported)
    (hsf : ∀ s ∈ ctx.stringFilters,
      s ∉ ["equals", "in", "notIn", "lt", "lte", "gt", "gte", "search", "path", "not"]) :
    ∃ obj, fullScalarFilterType ctx typ false nullable false includeAggregates = some obj ∧
      ("equals" ∈ obj.fields.map InputField.name) ∧
      (("in" ∈ obj.fields.map InputField.name) ↔ specInclusionKind typ = true) ∧
      (("notIn" ∈ obj.fields.map InputField.name) ↔ specInclusionKind typ = true) ∧
      (∀ nm ∈ ["lt", "lte", "gt", "gte"],
        ((nm ∈ obj.fields.map InputField.name) ↔
          (specOrderingComparisonKind typ = true ∨
            (typ = TypeIdentifier.Json ∧
              ctx.supportsAny [.JsonFilteringJsonPath, .JsonFilteringArrayPath] = true ∧
              ctx.hasCapability .JsonFilteringAlphanumeric = true)))) ∧
      ((typ = TypeIdentifier.String ∨ typ = TypeIdentifier.UUID) →
        ∀ s ∈ ctx.stringFilters, s ∈ obj.fields.map InputField.name) ∧
      (("search" ∈ obj.fields.map InputField.name) ↔
        ((typ = TypeIdentifier.String ∨ typ = TypeIdentifier.UUID) ∧
          ctx.canFullTextSearch = true)) ∧
      (("path" ∈ obj.fields.map InputField.name) ↔
        (typ = TypeIdentifier.Json ∧
          ctx.supportsAny [.JsonFilteringJsonPath, .JsonFilteringArrayPath] = true)) ∧
      (∃ f ∈ obj.fields, f.name = "not" ∧
        (typ ≠ TypeIdentifier.Json →
          InputType.object (scalarFilterIdent (typeIdentifierName typ) false nullable true
            includeAggregates) ∈ f.fieldTypes)) := by
  have hsearch : "search" ∉ ctx.stringFilters := fun h => by simpa using hsf _ h
  have hlt : "lt" ∉ ctx.stringFilters := fun h => by simpa using hsf _ h
  have hlte : "lte" ∉ ctx.stringFilters := fun h => by simpa using hsf _ h
  have hgt : "gt" ∉ ctx.stringFilters := fun h => by simpa using hsf _ h
  have hgte : "gte" ∉ ctx.stringFilters := fun h => by simpa using hsf _ h
  have hin : "in" ∉ ctx.stringFilters := fun h => by simpa using hsf _ h
  have hnotin : "notIn" ∉ ctx.stringFilters := fun h => by simpa using hsf _ h
  have hpath : "path" ∉ ctx.stringFilters := fun h => by simpa using hsf _ h
  cases typ with
  | Unsupported => exact absurd rfl hne
  | String =>
      obtain ⟨obj, h1⟩ : ∃ o, fullScalarFilterType ctx TypeIdentifier.String false nullable false
          includeAggregates = some o :=
        ⟨_, fullScalarFilterType_fields ctx _ nullable includeAggregates (by simp)⟩
      have h2 := fullScalarFilterType_names ctx TypeIdentifier.String nullable includeAggregates (by simp)
      rw [h1] at h2
      simp only [Option.map_some', Option.some.injEq] at h2
      have h3 := fullScalarFilterType_fields ctx TypeIdentifier.String nullable includeAggregates (by simp)
      rw [h1] at h3
      have hfields := Option.some.inj h3
      refine ⟨obj, h1, ?_, ?_, ?_, ?_, ?_, ?_, ?_, ?_⟩
      · rw [h2, names_kindFields_String]
        first
        | (simp [specInclusionKind, specOrderingComparisonKind]; done)
        | ((split_ifs <;> simp_all [specInclusionKind, specOrderingComparisonKind]); done)
        | (intro h s hs
           simp
           tauto)
      · rw [h2, names_kindFields_String]
        first
        | (simp [specInclusionKind, specOrderingComparisonKind]; done)
        | ((split_ifs <;> simp_all [specInclusionKind, specOrderingComparisonKind]); done)
        | (intro h s hs
           simp
           tauto)
      · rw [h2, names_kindFields_String]
        first
        | (simp [specInclusionKind, specOrderingComparisonKind]; done)
        | ((split_ifs <;> simp_all [specInclusionKind, specOrderingComparisonKind]); done)
        | (intro h s hs
           simp
           tauto)
      · rw [h2, names_kindFields_String]
        first
        | (simp [specInclusionKind, specOrderingComparisonKind]; done)
        | ((split_ifs <;> simp_all [specInclusionKind, specOrderingComparisonKind]); done)
        | (intro h s hs
           simp
           tauto)
      · rw [h2, names_kindFields_String]
        first
        | (simp [specInclusionKind, specOrderingComparisonKind]; done)
        | ((split_ifs <;> simp_all [specInclusionKind, specOrderingComparisonKind]); done)
        | (intro h s hs
           simp
           tauto)
      · rw [h2, names_kindFields_String]
        first
        | (simp [specInclusionKind, specOrderingComparisonKind]; done)
        | ((split_ifs <;> simp_all [specInclusionKind, specOrderingComparisonKind]); done)
        | (intro h s hs
           simp
           tauto)
      · rw [h2, names_kindFields_String]
        first
        | (simp [specInclusionKind, specOrderingComparisonKind]; done)
        | ((split_ifs <;> simp_all [specInclusionKind, specOrderingComparisonKind]); done)
        | (intro h s hs
           simp
           tauto)
      · rw [hfields]
        refine ⟨notFilterField ctx TypeIdentifier.String (mapScalarInputType TypeIdentifier.String false) nullable
            includeAggregates false, ?_,
          notFilterField_name ctx TypeIdentifier.String (mapScalarInputType TypeIdentifier.String false) nullable
            includeAggregates false,
          fun hj => notFilterField_mem_types ctx TypeIdentifier.String (mapScalarInputType TypeIdentifier.String false) nullable includeAggregates hj⟩
        simp [InputObjectType.set_fields, initInputObjectType]
  | UUID =>
      obtain ⟨obj, h1⟩ : ∃ o, fullScalarFilterType ctx TypeIdentifier.UUID false nullable false
          includeAggregates = some o :=
        ⟨_, fullScalarFilterType_fields ctx _ nullable includeAggregates (by simp)⟩
      have h2 := fullScalarFilterType_names ctx TypeIdentifier.UUID nullable includeAggregates (by simp)
      rw [h1] at h2
      simp only [Option.map_some', Option.some.injEq] at h2
      have h3 := fullScalarFilterType_fields ctx TypeIdentifier.UUID nullable includeAggregates (by simp)
      rw [h1] at h3
      have hfields := Option.some.inj h3
      refine ⟨obj, h1, ?_, ?_, ?_, ?_, ?_, ?_, ?_, ?_⟩
      · rw [h2, names_kindFields_UUID]
        first
        | (simp [specInclusionKind, specOrderingComparisonKind]; done)
        | ((split_ifs <;> simp_all [specInclusionKind, specOrderingComparisonKind]); done)
        | (intro h s hs
           simp
           tauto)
      · rw [h2, names_kindFields_UUID]
        first
        | (simp [specInclusionKind, specOrderingComparisonKind]; done)
        | ((split_ifs <;> simp_all [specInclusionKind, specOrderingComparisonKind]); done)
        | (intro h s hs
           simp
           tauto)
      · rw [h2, names_kindFields_UUID]
        first
        | (simp [specInclusionKind, specOrderingComparisonKind]; done)
        | ((split_ifs <;> simp_all [specInclusionKind, specOrderingComparisonKind]); done)
        | (intro h s hs
           simp
           tauto)
      · rw [h2, names_kindFields_UUID]
        first
        | (simp [specInclusionKind, specOrderingComparisonKind]; done)
        | ((split_ifs <;> simp_all [specInclusionKind, specOrderingComparisonKind]); done)
        | (intro h s hs
           simp
           tauto)
      · rw [h2, names_kindFields_UUID]
        first
        | (simp [specInclusionKind, specOrderingComparisonKind]; done)
        | ((split_ifs <;> simp_all [specInclusionKind, specOrderingComparisonKind]); done)
        | (intro h s hs
           simp
           tauto)
      · rw [h2, names_kindFields_UUID]
        first
        | (simp [specInclusionKind, specOrderingComparisonKind]; done)
        | ((split_ifs <;> simp_all [specInclusionKind, specOrderingComparisonKind]); done)
        | (intro h s hs
           simp
           tauto)
      · rw [h2, names_kindFields_UUID]
        first
        | (simp [specInclusionKind, specOrderingComparisonKind]; done)
        | ((split_ifs <;> simp_all [specInclusionKind, specOrderingComparisonKind]); done)
        | (intro h s hs
           simp
           tauto)
      · rw [hfields]
        refine ⟨notFilterField ctx TypeIdentifier.UUID (mapScalarInputType TypeIdentifier.UUID false) nullable
            includeAggregates false, ?_,
          notFilterField_name ctx TypeIdentifier.UUID (mapScalarInputType TypeIdentifier.UUID false) nullable
            includeAggregates false,
          fun hj => notFilterField_mem_types ctx TypeIdentifier.UUID (mapScalarInputType TypeIdentifier.UUID false) nullable includeAggregates hj⟩
        simp [InputObjectType.set_fields, initInputObjectType]
  | Int =>
      obtain ⟨obj, h1⟩ : ∃ o, fullScalarFilterType ctx TypeIdentifier.Int false nullable false
          includeAggregates = some o :=
        ⟨_, fullScalarFilterType_fields ctx _ nullable includeAggregates (by simp)⟩
      have h2 := fullScalarFilterType_names ctx TypeIdentifier.Int nullable includeAggregates (by simp)
      rw [h1] at h2
      simp only [Option.map_some', Option.some.injEq] at h2
      have h3 := fullScalarFilterType_fields ctx TypeIdentifier.Int nullable includeAggregates (by simp)
      rw [h1] at h3
      have hfields := Option.some.inj h3
      refine ⟨obj, h1, ?_, ?_, ?_, ?_, ?_, ?_, ?_, ?_⟩
      · rw [h2, names_kindFields_numeric _ _ _ _ _ (Or.inl rfl)]
        first
        | (simp [specInclusionKind, specOrderingComparisonKind]; done)
        | ((split_ifs <;> simp_all [specInclusionKind, specOrderingComparisonKind]); done)
        | (intro h s hs
           simp
           tauto)
      · rw [h2, names_kindFields_numeric _ _ _ _ _ (Or.inl rfl)]
        first
        | (simp [specInclusionKind, specOrderingComparisonKind]; done)
        | ((split_ifs <;> simp_all [specInclusionKind, specOrderingComparisonKind]); done)
        | (intro h s hs
           simp
           tauto)
      · rw [h2, names_kindFields_numeric _ _ _ _ _ (Or.inl rfl)]
        first
        | (simp [specInclusionKind, specOrderingComparisonKind]; done)
        | ((split_ifs <;> simp_all [specInclusionKind, specOrderingComparisonKind]); done)
        | (intro h s hs
           simp
           tauto)
      · rw [h2, names_kindFields_numeric _ _ _ _ _ (Or.inl rfl)]
        first
        | (simp [specInclusionKind, specOrderingComparisonKind]; done)
        | ((split_ifs <;> simp_all [specInclusionKind, specOrderingComparisonKind]); done)
        | (intro h s hs
           simp
           tauto)
      · rw [h2, names_kindFields_numeric _ _ _ _ _ (Or.inl rfl)]
        first
        | (simp [specInclusionKind, specOrderingComparisonKind]; done)
        | ((split_ifs <;> simp_all [specInclusionKind, specOrderingComparisonKind]); done)
        | (intro h s hs
           simp
           tauto)
      · rw [h2, names_kindFields_numeric _ _ _ _ _ (Or.inl rfl)]
        first
        | (simp [specInclusionKind, specOrderingComparisonKind]; done)
        | ((split_ifs <;> simp_all [specInclusionKind, specOrderingComparisonKind]); done)
        | (intro h s hs
           simp
           tauto)
      · rw [h2, names_kindFields_numeric _ _ _ _ _ (Or.inl rfl)]
        first
        | (simp [specInclusionKind, specOrderingComparisonKind]; done)
        | ((split_ifs <;> simp_all [specInclusionKind, specOrderingComparisonKind]); done)
        | (intro h s hs
           simp
           tauto)
      · rw [hfields]
        refine ⟨notFilterField ctx TypeIdentifier.Int (mapScalarInputType TypeIdentifier.Int false) nullable
            includeAggregates false, ?_,
          notFilterField_name ctx TypeIdentifier.Int (mapScalarInputType TypeIdentifier.Int false) nullable
            includeAggregates false,
          fun hj => notFilterField_mem_types ctx TypeIdentifier.Int (mapScalarInputType TypeIdentifier.Int false) nullable includeAggregates hj⟩
        simp [InputObjectType.set_fields, initInputObjectType]
  | BigInt =>
      obtain ⟨obj, h1⟩ : ∃ o, fullScalarFilterType ctx TypeIdentifier.BigInt false nullable false
          includeAggregates = some o :=
        ⟨_, fullScalarFilterType_fields ctx _ nullable includeAggregates (by simp)⟩
      have h2 := fullScalarFilterType_names ctx TypeIdentifier.BigInt nullable includeAggregates (by simp)
      rw [h1] at h2
      simp only [Option.map_some', Option.some.injEq] at h2
      have h3 := fullScalarFilterType_fields ctx TypeIdentifier.BigInt nullable includeAggregates (by simp)
      rw [h1] at h3
      have hfields := Option.some.inj h3
      refine ⟨obj, h1, ?_, ?_, ?_, ?_, ?_, ?_, ?_, ?_⟩
      · rw [h2, names_kindFields_numeric _ _ _ _ _ (Or.inr (Or.inl rfl))]
        first
        | (simp [specInclusionKind, specOrderingComparisonKind]; done)
        | ((split_ifs <;> simp_all [specInclusionKind, specOrderingComparisonKind]); done)
        | (intro h s hs
           simp
           tauto)
      · rw [h2, names_kindFields_numeric _ _ _ _ _ (Or.inr (Or.inl rfl))]
        first
        | (simp [specInclusionKind, specOrderingComparisonKind]; done)
        | ((split_ifs <;> simp_all [specInclusionKind, specOrderingComparisonKind]); done)
        | (intro h s hs
           simp
           tauto)
      · rw [h2, names_kindFields_numeric _ _ _ _ _ (Or.inr (Or.inl rfl))]
        first
        | (simp [specInclusionKind, specOrderingComparisonKind]; done)
        | ((split_ifs <;> simp_all [specInclusionKind, specOrderingComparisonKind]); done)
        | (intro h s hs
           simp
           tauto)
      · rw [h2, names_kindFields_numeric _ _ _ _ _ (Or.inr (Or.inl rfl))]
        first
        | (simp [specInclusionKind, specOrderingComparisonKind]; done)
        | ((split_ifs <;> simp_all [specInclusionKind, specOrderingComparisonKind]); done)
        | (intro h s hs
           simp
           tauto)
      · rw [h2, names_kindFields_numeric _ _ _ _ _ (Or.inr (Or.inl rfl))]
        first
        | (simp [specInclusionKind, specOrderingComparisonKind]; done)
        | ((split_ifs <;> simp_all [specInclusionKind, specOrderingComparisonKind]); done)
        | (intro h s hs
           simp
           tauto)
      · rw [h2, names_kindFields_numeric _ _ _ _ _ (Or.inr (Or.inl rfl))]
        first
        | (simp [specInclusionKind, specOrderingComparisonKind]; done)
        | ((split_ifs <;> simp_all [specInclusionKind, specOrderingComparisonKind]); done)
        | (intro h s hs
           simp
           tauto)
      · rw [h2, names_kindFields_numeric _ _ _ _ _ (Or.inr (Or.inl rfl))]
        first
        | (simp [specInclusionKind, specOrderingComparisonKind]; done)
        | ((split_ifs <;> simp_all [specInclusionKind, specOrderingComparisonKind]); done)
        | (intro h s hs
           simp
           tauto)
      · rw [hfields]
        refine ⟨notFilterField ctx TypeIdentifier.BigInt (mapScalarInputType TypeIdentifier.BigInt false) nullable
            includeAggregates false, ?_,
          notFilterField_name ctx TypeIdentifier.BigInt (mapScalarInputType TypeIdentifier.BigInt false) nullable
            includeAggregates false,
          fun hj => notFilterField_mem_types ctx TypeIdentifier.BigInt (mapScalarInputType TypeIdentifier.BigInt false) nullable includeAggregates hj⟩
        simp [InputObjectType.set_fields, initInputObjectType]
  | Float =>
      obtain ⟨obj, h1⟩ : ∃ o, fullScalarFilterType ctx TypeIdentifier.Float false nullable false
          includeAggregates = some o :=
        ⟨_, fullScalarFilterType_fields ctx _ nullable includeAggregates (by simp)⟩
      have h2 := fullScalarFilterType_names ctx TypeIdentifier.Float nullable includeAggregates (by simp)
      rw [h1] at h2
      simp only [Option.map_some', Option.some.injEq] at h2
      have h3 := fullScalarFilterType_fields ctx TypeIdentifier.Float nullable includeAggregates (by simp)
      rw [h1] at h3
      have hfields := Option.some.inj h3
      refine ⟨obj, h1, ?_, ?_, ?_, ?_, ?_, ?_, ?_, ?_⟩
      · rw [h2, names_kindFields_numeric _ _ _ _ _ (Or.inr (Or.inr (Or.inl rfl)))]
        first
        | (simp [specInclusionKind, specOrderingComparisonKind]; done)
        | ((split_ifs <;> simp_all [specInclusionKind, specOrderingComparisonKind]); done)
        | (intro h s hs
           simp
           tauto)
      · rw [h2, names_kindFields_numeric _ _ _ _ _ (Or.inr (Or.inr (Or.inl rfl)))]
        first
        | (simp [specInclusionKind, specOrderingComparisonKind]; done)
        | ((split_ifs <;> simp_all [specInclusionKind, specOrderingComparisonKind]); done)
        | (intro h s hs
           simp
           tauto)
      · rw [h2, names_kindFields_numeric _ _ _ _ _ (Or.inr (Or.inr (Or.inl rfl)))]
        first
        | (simp [specInclusionKind, specOrderingComparisonKind]; done)
        | ((split_ifs <;> simp_all [specInclusionKind, specOrderingComparisonKind]); done)
        | (intro h s hs
           simp
           tauto)
      · rw [h2, names_kindFields_numeric _ _ _ _ _ (Or.inr (Or.inr (Or.inl rfl)))]
        first
        | (simp [specInclusionKind, specOrderingComparisonKind]; done)
        | ((split_ifs <;> simp_all [specInclusionKind, specOrderingComparisonKind]); done)
        | (intro h s hs
           simp
           tauto)
      · rw [h2, names_kindFields_numeric _ _ _ _ _ (Or.inr (Or.inr (Or.inl rfl)))]
        first
        | (simp [specInclusionKind, specOrderingComparisonKind]; done)
        | ((split_ifs <;> simp_all [specInclusionKind, specOrderingComparisonKind]); done)
        | (intro h s hs
           simp
           tauto)
      · rw [h2, names_kindFields_numeric _ _ _ _ _ (Or.inr (Or.inr (Or.inl rfl)))]
        first
        | (simp [specInclusionKind, specOrderingComparisonKind]; done)
        | ((split_ifs <;> simp_all [specInclusionKind, specOrderingComparisonKind]); done)
        | (intro h s hs
           simp
           tauto)
      · rw [h2, names_kindFields_numeric _ _ _ _ _ (Or.inr (Or.inr (Or.inl rfl)))]
        first
        | (simp [specInclusionKind, specOrderingComparisonKind]; done)
        | ((split_ifs <;> simp_all [specInclusionKind, specOrderingComparisonKind]); done)
        | (intro h s hs
           simp
           tauto)
      · rw [hfields]
        refine ⟨notFilterField ctx TypeIdentifier.Float (mapScalarInputType TypeIdentifier.Float false) nullable
            includeAggregates false, ?_,
          notFilterField_name ctx TypeIdentifier.Float (mapScalarInputType TypeIdentifier.Float false) nullable
            includeAggregates false,
          fun hj => notFilterField_mem_types ctx TypeIdentifier.Float (mapScalarInputType TypeIdentifier.Float false) nullable includeAggregates hj⟩
        simp [InputObjectType.set_fields, initInputObjectType]
  | DateTime =>
      obtain ⟨obj, h1⟩ : ∃ o, fullScalarFilterType ctx TypeIdentifier.DateTime false nullable false
          includeAggregates = some o :=
        ⟨_, fullScalarFilterType_fields ctx _ nullable includeAggregates (by simp)⟩
      have h2 := fullScalarFilterType_names ctx TypeIdentifier.DateTime nullable includeAggregates (by simp)
      rw [h1] at h2
      simp only [Option.map_some', Option.some.injEq] at h2
      have h3 := fullScalarFilterType_fields ctx TypeIdentifier.DateTime nullable includeAggregates (by simp)
      rw [h1] at h3
      have hfields := Option.some.inj h3
      refine ⟨obj, h1, ?_, ?_, ?_, ?_, ?_, ?_, ?_, ?_⟩
      · rw [h2, names_kindFields_numeric _ _ _ _ _ (Or.inr (Or.inr (Or.inr (Or.inl rfl))))]
        first
        | (simp [specInclusionKind, specOrderingComparisonKind]; done)
        | ((split_ifs <;> simp_all [specInclusionKind, specOrderingComparisonKind]); done)
        | (intro h s hs
           simp
           tauto)
      · rw [h2, names_kindFields_numeric _ _ _ _ _ (Or.inr (Or.inr (Or.inr (Or.inl rfl))))]
        first
        | (simp [specInclusionKind, specOrderingComparisonKind]; done)
        | ((split_ifs <;> simp_all [specInclusionKind, specOrderingComparisonKind]); done)
        | (intro h s hs
           simp
           tauto)
      · rw [h2, names_kindFields_numeric _ _ _ _ _ (Or.inr (Or.inr (Or.inr (Or.inl rfl))))]
        first
        | (simp [specInclusionKind, specOrderingComparisonKind]; done)
        | ((split_ifs <;> simp_all [specInclusionKind, specOrderingComparisonKind]); done)
        | (intro h s hs
           simp
           tauto)
      · rw [h2, names_kindFields_numeric _ _ _ _ _ (Or.inr (Or.inr (Or.inr (Or.inl rfl))))]
        first
        | (simp [specInclusionKind, specOrderingComparisonKind]; done)
        | ((split_ifs <;> simp_all [specInclusionKind, specOrderingComparisonKind]); done)
        | (intro h s hs
           simp
           tauto)
      · rw [h2, names_kindFields_numeric _ _ _ _ _ (Or.inr (Or.inr (Or.inr (Or.inl rfl))))]
        first
        | (simp [specInclusionKind, specOrderingComparisonKind]; done)
        | ((split_ifs <;> simp_all [specInclusionKind, specOrderingComparisonKind]); done)
        | (intro h s hs
           simp
           tauto)
      · rw [h2, names_kindFields_numeric _ _ _ _ _ (Or.inr (Or.inr (Or.inr (Or.inl rfl))))]
        first
        | (simp [specInclusionKind, specOrderingComparisonKind]; done)
        | ((split_ifs <;> simp_all [specInclusionKind, specOrderingComparisonKind]); done)
        | (intro h s hs
           simp
           tauto)
      · rw [h2, names_kindFields_numeric _ _ _ _ _ (Or.inr (Or.inr (Or.inr (Or.inl rfl))))]
        first
        | (simp [specInclusionKind, specOrderingComparisonKind]; done)
        | ((split_ifs <;> simp_all [specInclusionKind, specOrderingComparisonKind]); done)
        | (intro h s hs
           simp
           tauto)
      · rw [hfields]
        refine ⟨notFilterField ctx TypeIdentifier.DateTime (mapScalarInputType TypeIdentifier.DateTime false) nullable
            includeAggregates false, ?_,
          notFilterField_name ctx TypeIdentifier.DateTime (mapScalarInputType TypeIdentifier.DateTime false) nullable
            includeAggregates false,
          fun hj => notFilterField_mem_types ctx TypeIdentifier.DateTime (mapScalarInputType TypeIdentifier.DateTime false) nullable includeAggregates hj⟩
        simp [InputObjectType.set_fields, initInputObjectType]
  | Decimal =>
      obtain ⟨obj, h1⟩ : ∃ o, fullScalarFilterType ctx TypeIdentifier.Decimal false nullable false
          includeAggregates = some o :=
        ⟨_, fullScalarFilterType_fields ctx _ nullable includeAggregates (by simp)⟩
      have h2 := fullScalarFilterType_names ctx TypeIdentifier.Decimal nullable includeAggregates (by simp)
      rw [h1] at h2
      simp only [Option.map_some', Option.some.injEq] at h2
      have h3 := fullScalarFilterType_fields ctx TypeIdentifier.Decimal nullable includeAggregates (by simp)
      rw [h1] at h3
      have hfields := Option.some.inj h3
      refine ⟨obj, h1, ?_, ?_, ?_, ?_, ?_, ?_, ?_, ?_⟩
      · rw [h2, names_kindFields_numeric _ _ _ _ _ (Or.inr (Or.inr (Or.inr (Or.inr rfl))))]
        first
        | (simp [specInclusionKind, specOrderingComparisonKind]; done)
        | ((split_ifs <;> simp_all [specInclusionKind, specOrderingComparisonKind]); done)
        | (intro h s hs
           simp
           tauto)
      · rw [h2, names_kindFields_numeric _ _ _ _ _ (Or.inr (Or.inr (Or.inr (Or.inr rfl))))]
        first
        | (simp [specInclusionKind, specOrderingComparisonKind]; done)
        | ((split_ifs <;> simp_all [specInclusionKind, specOrderingComparisonKind]); done)
        | (intro h s hs
           simp
           tauto)
      · rw [h2, names_kindFields_numeric _ _ _ _ _ (Or.inr (Or.inr (Or.inr (Or.inr rfl))))]
        first
        | (simp [specInclusionKind, specOrderingComparisonKind]; done)
        | ((split_ifs <;> simp_all [specInclusionKind, specOrderingComparisonKind]); done)
        | (intro h s hs
           simp
           tauto)
      · rw [h2, names_kindFields_numeric _ _ _ _ _ (Or.inr (Or.inr (Or.inr (Or.inr rfl))))]
        first
        | (simp [specInclusionKind, specOrderingComparisonKind]; done)
        | ((split_ifs <;> simp_all [specInclusionKind, specOrderingComparisonKind]); done)
        | (intro h s hs
           simp
           tauto)
      · rw [h2, names_kindFields_numeric _ _ _ _ _ (Or.inr (Or.inr (Or.inr (Or.inr rfl))))]
        first
        | (simp [specInclusionKind, specOrderingComparisonKind]; done)
        | ((split_ifs <;> simp_all [specInclusionKind, specOrderingComparisonKind]); done)
        | (intro h s hs
           simp
           tauto)
      · rw [h2, names_kindFields_numeric _ _ _ _ _ (Or.inr (Or.inr (Or.inr (Or.inr rfl))))]
        first
        | (simp [specInclusionKind, specOrderingComparisonKind]; done)
        | ((split_ifs <;> simp_all [specInclusionKind, specOrderingComparisonKind]); done)
        | (intro h s hs
           simp
           tauto)
      · rw [h2, names_kindFields_numeric _ _ _ _ _ (Or.inr (Or.inr (Or.inr (Or.inr rfl))))]
        first
        | (simp [specInclusionKind, specOrderingComparisonKind]; done)
        | ((split_ifs <;> simp_all [specInclusionKind, specOrderingComparisonKind]); done)
        | (intro h s hs
           simp
           tauto)
      · rw [hfields]
        refine ⟨notFilterField ctx TypeIdentifier.Decimal (mapScalarInputType TypeIdentifier.Decimal false) nullable
            includeAggregates false, ?_,
          notFilterField_name ctx TypeIdentifier.Decimal (mapScalarInputType TypeIdentifier.Decimal false) nullable
            includeAggregates false,
          fun hj => notFilterField_mem_types ctx TypeIdentifier.Decimal (mapScalarInputType TypeIdentifier.Decimal false) nullable includeAggregates hj⟩
        simp [InputObjectType.set_fields, initInputObjectType]
  | Json =>
      obtain ⟨obj, h1⟩ : ∃ o, fullScalarFilterType ctx TypeIdentifier.Json false nullable false
          includeAggregates = some o :=
        ⟨_, fullScalarFilterType_fields ctx _ nullable includeAggregates (by simp)⟩
      have h2 := fullScalarFilterType_names ctx TypeIdentifier.Json nullable includeAggregates (by simp)
      rw [h1] at h2
      simp only [Option.map_some', Option.some.injEq] at h2
      have h3 := fullScalarFilterType_fields ctx TypeIdentifier.Json nullable includeAggregates (by simp)
      rw [h1] at h3
      have hfields := Option.some.inj h3
      refine ⟨obj, h1, ?_, ?_, ?_, ?_, ?_, ?_, ?_, ?_⟩
      · rw [h2, names_kindFields_Json]
        first
        | (simp [specInclusionKind, specOrderingComparisonKind]; done)
        | ((split_ifs <;> simp_all [specInclusionKind, specOrderingComparisonKind]); done)
        | (intro h s hs
           simp
           tauto)
      · rw [h2, names_kindFields_Json]
        first
        | (simp [specInclusionKind, specOrderingComparisonKind]; done)
        | ((split_ifs <;> simp_all [specInclusionKind, specOrderingComparisonKind]); done)
        | (intro h s hs
           simp
           tauto)
      · rw [h2, names_kindFields_Json]
        first
        | (simp [specInclusionKind, specOrderingComparisonKind]; done)
        | ((split_ifs <;> simp_all [specInclusionKind, specOrderingComparisonKind]); done)
        | (intro h s hs
           simp
           tauto)
      · rw [h2, names_kindFields_Json]
        first
        | (simp [specInclusionKind, specOrderingComparisonKind]; done)
        | ((split_ifs <;> simp_all [specInclusionKind, specOrderingComparisonKind]); done)
        | (intro h s hs
           simp
           tauto)
      · rw [h2, names_kindFields_Json]
        first
        | (simp [specInclusionKind, specOrderingComparisonKind]; done)
        | ((split_ifs <;> simp_all [specInclusionKind, specOrderingComparisonKind]); done)
        | (intro h s hs
           simp
           tauto)
      · rw [h2, names_kindFields_Json]
        first
        | (simp [specInclusionKind, specOrderingComparisonKind]; done)
        | ((split_ifs <;> simp_all [specInclusionKind, specOrderingComparisonKind]); done)
        | (intro h s hs
           simp
           tauto)
      · rw [h2, names_kindFields_Json]
        first
        | (simp [specInclusionKind, specOrderingComparisonKind]; done)
        | ((split_ifs <;> simp_all [specInclusionKind, specOrderingComparisonKind]); done)
        | (intro h s hs
           simp
           tauto)
      · rw [hfields]
        refine ⟨notFilterField ctx TypeIdentifier.Json (mapScalarInputType TypeIdentifier.Json false) nullable
            includeAggregates false, ?_,
          notFilterField_name ctx TypeIdentifier.Json (mapScalarInputType TypeIdentifier.Json false) nullable
            includeAggregates false,
          fun hj => absurd rfl hj⟩
        simp [InputObjectType.set_fields, initInputObjectType]
  | Boolean =>
      obtain ⟨obj, h1⟩ : ∃ o, fullScalarFilterType ctx TypeIdentifier.Boolean false nullable false
          includeAggregates = some o :=
        ⟨_, fullScalarFilterType_fields ctx _ nullable includeAggregates (by simp)⟩
      have h2 := fullScalarFilterType_names ctx TypeIdentifier.Boolean nullable includeAggregates (by simp)
      rw [h1] at h2
      simp only [Option.map_some', Option.some.injEq] at h2
      have h3 := fullScalarFilterType_fields ctx TypeIdentifier.Boolean nullable includeAggregates (by simp)
      rw [h1] at h3
      have hfields := Option.some.inj h3
      refine ⟨obj, h1, ?_, ?_, ?_, ?_, ?_, ?_, ?_, ?_⟩
      · rw [h2, names_kindFields_boolxml _ _ _ _ _ (Or.inl rfl)]
        first
        | (simp [specInclusionKind, specOrderingComparisonKind]; done)
        | ((split_ifs <;> simp_all [specInclusionKind, specOrderingComparisonKind]); done)
        | (intro h s hs
           simp
           tauto)
      · rw [h2, names_kindFields_boolxml _ _ _ _ _ (Or.inl rfl)]
        first
        | (simp [specInclusionKind, specOrderingComparisonKind]; done)
        | ((split_ifs <;> simp_all [specInclusionKind, specOrderingComparisonKind]); done)
        | (intro h s hs
           simp
           tauto)
      · rw [h2, names_kindFields_boolxml _ _ _ _ _ (Or.inl rfl)]
        first
        | (simp [specInclusionKind, specOrderingComparisonKind]; done)
        | ((split_ifs <;> simp_all [specInclusionKind, specOrderingComparisonKind]); done)
        | (intro h s hs
           simp
           tauto)
      · rw [h2, names_kindFields_boolxml _ _ _ _ _ (Or.inl rfl)]
        first
        | (simp [specInclusionKind, specOrderingComparisonKind]; done)
        | ((split_ifs <;> simp_all [specInclusionKind, specOrderingComparisonKind]); done)
        | (intro h s hs
           simp
           tauto)
      · rw [h2, names_kindFields_boolxml _ _ _ _ _ (Or.inl rfl)]
        first
        | (simp [specInclusionKind, specOrderingComparisonKind]; done)
        | ((split_ifs <;> simp_all [specInclusionKind, specOrderingComparisonKind]); done)
        | (intro h s hs
           simp
           tauto)
      · rw [h2, names_kindFields_boolxml _ _ _ _ _ (Or.inl rfl)]
        first
        | (simp [specInclusionKind, specOrderingComparisonKind]; done)
        | ((split_ifs <;> simp_all [specInclusionKind, specOrderingComparisonKind]); done)
        | (intro h s hs
           simp
           tauto)
      · rw [h2, names_kindFields_boolxml _ _ _ _ _ (Or.inl rfl)]
        first
        | (simp [specInclusionKind, specOrderingComparisonKind]; done)
        | ((split_ifs <;> simp_all [specInclusionKind, specOrderingComparisonKind]); done)
        | (intro h s hs
           simp
           tauto)
      · rw [hfields]
        refine ⟨notFilterField ctx TypeIdentifier.Boolean (mapScalarInputType TypeIdentifier.Boolean false) nullable
            includeAggregates false, ?_,
          notFilterField_name ctx TypeIdentifier.Boolean (mapScalarInputType TypeIdentifier.Boolean false) nullable
            includeAggregates false,
          fun hj => notFilterField_mem_types ctx TypeIdentifier.Boolean (mapScalarInputType TypeIdentifier.Boolean false) nullable includeAggregates hj⟩
        simp [InputObjectType.set_fields, initInputObjectType]
  | Xml =>
      obtain ⟨obj, h1⟩ : ∃ o, fullScalarFilterType ctx TypeIdentifier.Xml false nullable false
          includeAggregates = some o :=
        ⟨_, fullScalarFilterType_fields ctx _ nullable includeAggregates (by simp)⟩
      have h2 := fullScalarFilterType_names ctx TypeIdentifier.Xml nullable includeAggregates (by simp)
      rw [h1] at h2
      simp only [Option.map_some', Option.some.injEq] at h2
      have h3 := fullScalarFilterType_fields ctx TypeIdentifier.Xml nullable includeAggregates (by simp)
      rw [h1] at h3
      have hfields := Option.some.inj h3
      refine ⟨obj, h1, ?_, ?_, ?_, ?_, ?_, ?_, ?_, ?_⟩
      · rw [h2, names_kindFields_boolxml _ _ _ _ _ (Or.inr rfl)]
        first
        | (simp [specInclusionKind, specOrderingComparisonKind]; done)
        | ((split_ifs <;> simp_all [specInclusionKind, specOrderingComparisonKind]); done)
        | (intro h s hs
           simp
           tauto)
      · rw [h2, names_kindFields_boolxml _ _ _ _ _ (Or.inr rfl)]
        first
        | (simp [specInclusionKind, specOrderingComparisonKind]; done)
        | ((split_ifs <;> simp_all [specInclusionKind, specOrderingComparisonKind]); done)
        | (intro h s hs
           simp
           tauto)
      · rw [h2, names_kindFields_boolxml _ _ _ _ _ (Or.inr rfl)]
        first
        | (simp [specInclusionKind, specOrderingComparisonKind]; done)
        | ((split_ifs <;> simp_all [specInclusionKind, specOrderingComparisonKind]); done)
        | (intro h s hs
           simp
           tauto)
      · rw [h2, names_kindFields_boolxml _ _ _ _ _ (Or.inr rfl)]
        first
        | (simp [specInclusionKind, specOrderingComparisonKind]; done)
        | ((split_ifs <;> simp_all [specInclusionKind, specOrderingComparisonKind]); done)
        | (intro h s hs
           simp
           tauto)
      · rw [h2, names_kindFields_boolxml _ _ _ _ _ (Or.inr rfl)]
        first
        | (simp [specInclusionKind, specOrderingComparisonKind]; done)
        | ((split_ifs <;> simp_all [specInclusionKind, specOrderingComparisonKind]); done)
        | (intro h s hs
           simp
           tauto)
      · rw [h2, names_kindFields_boolxml _ _ _ _ _ (Or.inr rfl)]
        first
        | (simp [specInclusionKind, specOrderingComparisonKind]; done)
        | ((split_ifs <;> simp_all [specInclusionKind, specOrderingComparisonKind]); done)
        | (intro h s hs
           simp
           tauto)
      · rw [h2, names_kindFields_boolxml _ _ _ _ _ (Or.inr rfl)]
        first
        | (simp [specInclusionKind, specOrderingComparisonKind]; done)
        | ((split_ifs <;> simp_all [specInclusionKind, specOrderingComparisonKind]); done)
        | (intro h s hs
           simp
           tauto)
      · rw [hfields]
        refine ⟨notFilterField ctx TypeIdentifier.Xml (mapScalarInputType TypeIdentifier.Xml false) nullable
            includeAggregates false, ?_,
          notFilterField_name ctx TypeIdentifier.Xml (mapScalarInputType TypeIdentifier.Xml false) nullable
            includeAggregates false,
          fun hj => notFilterField_mem_types ctx TypeIdentifier.Xml (mapScalarInputType TypeIdentifier.Xml false) nullable includeAggregates hj⟩
        simp [InputObjectType.set_fields, initInputObjectType]
  | Bytes =>
      obtain ⟨obj, h1⟩ : ∃ o, fullScalarFilterType ctx TypeIdentifier.Bytes false nullable false
          includeAggregates = some o :=
        ⟨_, fullScalarFilterType_fields ctx _ nullable includeAggregates (by simp)⟩
      have h2 := fullScalarFilterType_names ctx TypeIdentifier.Bytes nullable includeAggregates (by simp)
      rw [h1] at h2
      simp only [Option.map_some', Option.some.injEq] at h2
      have h3 := fullScalarFilterType_fields ctx TypeIdentifier.Bytes nullable includeAggregates (by simp)
      rw [h1] at h3
      have hfields := Option.some.inj h3
      refine ⟨obj, h1, ?_, ?_, ?_, ?_, ?_, ?_, ?_, ?_⟩
      · rw [h2, names_kindFields_bytesenum _ _ _ _ _ (Or.inl rfl)]
        first
        | (simp [specInclusionKind, specOrderingComparisonKind]; done)
        | ((split_ifs <;> simp_all [specInclusionKind, specOrderingComparisonKind]); done)
        | (intro h s hs
           simp
           tauto)
      · rw [h2, names_kindFields_bytesenum _ _ _ _ _ (Or.inl rfl)]
        first
        | (simp [specInclusionKind, specOrderingComparisonKind]; done)
        | ((split_ifs <;> simp_all [specInclusionKind, specOrderingComparisonKind]); done)
        | (intro h s hs
           simp
           tauto)
      · rw [h2, names_kindFields_bytesenum _ _ _ _ _ (Or.inl rfl)]
        first
        | (simp [specInclusionKind, specOrderingComparisonKind]; done)
        | ((split_ifs <;> simp_all [specInclusionKind, specOrderingComparisonKind]); done)
        | (intro h s hs
           simp
           tauto)
      · rw [h2, names_kindFields_bytesenum _ _ _ _ _ (Or.inl rfl)]
        first
        | (simp [specInclusionKind, specOrderingComparisonKind]; done)
        | ((split_ifs <;> simp_all [specInclusionKind, specOrderingComparisonKind]); done)
        | (intro h s hs
           simp
           tauto)
      · rw [h2, names_kindFields_bytesenum _ _ _ _ _ (Or.inl rfl)]
        first
        | (simp [specInclusionKind, specOrderingComparisonKind]; done)
        | ((split_ifs <;> simp_all [specInclusionKind, specOrderingComparisonKind]); done)
        | (intro h s hs
           simp
           tauto)
      · rw [h2, names_kindFields_bytesenum _ _ _ _ _ (Or.inl rfl)]
        first
        | (simp [specInclusionKind, specOrderingComparisonKind]; done)
        | ((split_ifs <;> simp_all [specInclusionKind, specOrderingComparisonKind]); done)
        | (intro h s hs
           simp
           tauto)
      · rw [h2, names_kindFields_bytesenum _ _ _ _ _ (Or.inl rfl)]
        first
        | (simp [specInclusionKind, specOrderingComparisonKind]; done)
        | ((split_ifs <;> simp_all [specInclusionKind, specOrderingComparisonKind]); done)
        | (intro h s hs
           simp
           tauto)
      · rw [hfields]
        refine ⟨notFilterField ctx TypeIdentifier.Bytes (mapScalarInputType TypeIdentifier.Bytes false) nullable
            includeAggregates false, ?_,
          notFilterField_name ctx TypeIdentifier.Bytes (mapScalarInputType TypeIdentifier.Bytes false) nullable
            includeAggregates false,
          fun hj => notFilterField_mem_types ctx TypeIdentifier.Bytes (mapScalarInputType TypeIdentifier.Bytes false) nullable includeAggregates hj⟩
        simp [InputObjectType.set_fields, initInputObjectType]
  | Enum n =>
      obtain ⟨obj, h1⟩ : ∃ o, fullScalarFilterType ctx (TypeIdentifier.Enum n) false nullable false
          includeAggregates = some o :=
        ⟨_, fullScalarFilterType_fields ctx _ nullable includeAggregates (by simp)⟩
      have h2 := fullScalarFilterType_names ctx (TypeIdentifier.Enum n) nullable includeAggregates (by simp)
      rw [h1] at h2
      simp only [Option.map_some', Option.some.injEq] at h2
      have h3 := fullScalarFilterType_fields ctx (TypeIdentifier.Enum n) nullable includeAggregates (by simp)
      rw [h1] at h3
      have hfields := Option.some.inj h3
      refine ⟨obj, h1, ?_, ?_, ?_, ?_, ?_, ?_, ?_, ?_⟩
      · rw [h2, names_kindFields_bytesenum _ _ _ _ _ (Or.inr ⟨n, rfl⟩)]
        first
        | (simp [specInclusionKind, specOrderingComparisonKind]; done)
        | ((split_ifs <;> simp_all [specInclusionKind, specOrderingComparisonKind]); done)
        | (intro h s hs
           simp
           tauto)
      · rw [h2, names_kindFields_bytesenum _ _ _ _ _ (Or.inr ⟨n, rfl⟩)]
        first
        | (simp [specInclusionKind, specOrderingComparisonKind]; done)
        | ((split_ifs <;> simp_all [specInclusionKind, specOrderingComparisonKind]); done)
        | (intro h s hs
           simp
           tauto)
      · rw [h2, names_kindFields_bytesenum _ _ _ _ _ (Or.inr ⟨n, rfl⟩)]
        first
        | (simp [specInclusionKind, specOrderingComparisonKind]; done)
        | ((split_ifs <;> simp_all [specInclusionKind, specOrderingComparisonKind]); done)
        | (intro h s hs
           simp
           tauto)
      · rw [h2, names_kindFields_bytesenum _ _ _ _ _ (Or.inr ⟨n, rfl⟩)]
        first
        | (simp [specInclusionKind, specOrderingComparisonKind]; done)
        | ((split_ifs <;> simp_all [specInclusionKind, specOrderingComparisonKind]); done)
        | (intro h s hs
           simp
           tauto)
      · rw [h2, names_kindFields_bytesenum _ _ _ _ _ (Or.inr ⟨n, rfl⟩)]
        first
        | (simp [specInclusionKind, specOrderingComparisonKind]; done)
        | ((split_ifs <;> simp_all [specInclusionKind, specOrderingComparisonKind]); done)
        | (intro h s hs
           simp
           tauto)
      · rw [h2, names_kindFields_bytesenum _ _ _ _ _ (Or.inr ⟨n, rfl⟩)]
        first
        | (simp [specInclusionKind, specOrderingComparisonKind]; done)
        | ((split_ifs <;> simp_all [specInclusionKind, specOrderingComparisonKind]); done)
        | (intro h s hs
           simp
           tauto)
      · rw [h2, names_kindFields_bytesenum _ _ _ _ _ (Or.inr ⟨n, rfl⟩)]
        first
        | (simp [specInclusionKind, specOrderingComparisonKind]; done)
        | ((split_ifs <;> simp_all [specInclusionKind, specOrderingComparisonKind]); done)
        | (intro h s hs
           simp
           tauto)
      · rw [hfields]
        refine ⟨notFilterField ctx (TypeIdentifier.Enum n) (mapScalarInputType (TypeIdentifier.Enum n) false) nullable
            includeAggregates false, ?_,
          notFilterField_name ctx (TypeIdentifier.Enum n) (mapScalarInputType (TypeIdentifier.Enum n) false) nullable
            includeAggregates false,
          fun hj => notFilterField_mem_types ctx (TypeIdentifier.Enum n) (mapScalarInputType (TypeIdentifier.Enum n) false) nullable includeAggregates hj⟩
        simp [InputObjectType.set_fields, initInputObjectType]


/-- C6 witness: the amended filter-matrix facts at a concrete configuration
and scalar kind. -/
theorem c6_scalar_filter_matrix_amended_witness :
    ∃ obj, fullScalarFilterType ctx0 TypeIdentifier.String false false false false
        = some obj ∧ "equals" ∈ obj.fields.map InputField.name := by
  obtain ⟨obj, h1, h2, _⟩ := c6_scalar_filter_matrix_amended ctx0 TypeIdentifier.String
    false false (by decide) (by decide)
  exact ⟨obj, h1, h2⟩

end PrismaEngines
